import Mathlib

/-!
Verification of the incremental reconciliation engine of
`process_nautica_data.py` (Milprops / Nautica Mall dashboard).

The Python code manipulates JSON dictionaries of floating point values.
We embed it shallowly:

* a Python `dict` becomes an association list `List (String × α)` with
  first-match lookup (`dget`), in-place update that preserves insertion
  order and appends new keys at the end (`dset`) — exactly the observable
  semantics of a Python dict;
* Python floats become rationals `ℚ`;
* Python `round(x, n)` (round half to even at `n` decimal places) becomes
  `pyround x n` built on an explicit round-half-to-even on `ℚ`.
-/

namespace Nautica

/-- Round half to even, as Python `round` does at integer precision. -/
def roundHalfEven (q : ℚ) : ℤ :=
  let f := ⌊q⌋
  let frac := q - (f : ℚ)
  if frac < 1/2 then f
  else if 1/2 < frac then f + 1
  else if f % 2 = 0 then f else f + 1

/-- Python `round(q, n)`: round half to even at `n` decimal places. -/
def pyround (q : ℚ) (n : ℕ) : ℚ :=
  (roundHalfEven (q * ((10 : ℚ) ^ n)) : ℚ) / ((10 : ℚ) ^ n)

/-- First-match lookup in an association list (Python membership and access). -/
def dget {α : Type} : List (String × α) → String → Option α
  | [], _ => none
  | (k', v) :: rest, k => if k' = k then some v else dget rest k

/-- Update in an association list (Python assignment to a key): replace the
first occurrence in place, or append at the end when the key is new. -/
def dset {α : Type} : List (String × α) → String → α → List (String × α)
  | [], k, v => [(k, v)]
  | (k', v') :: rest, k, v =>
      if k' = k then (k, v) :: rest else (k', v') :: dset rest k v

/-- A metric mapping: metric name to numeric value, a Python dict. -/
abbrev MetricMap : Type := List (String × ℚ)

/-- Python `d.get(k, default)`. -/
def mget (m : MetricMap) (k : String) (d : ℚ) : ℚ := (dget m k).getD d

/-- Fields that are summed when adding daily data. -/
def ADDITIVE_FIELDS : List String :=
  [ "PV Yield (kWh)"
  , "Inverter Yield (kWh)"
  , "Export (kWh)"
  , "Import (kWh)"
  , "Consumption (kWh)"
  , "Self-consumption (kWh)"
  , "CO₂ Avoided (t)"
  , "Standard Coal Saved (t)"
  , "Revenue (R.)"
  , "Charge (kWh)"
  , "Discharge (kWh)"
  , "Theoretical Yield (kWh)"
  , "Loss Due to Export Limitation (kWh)"
  , "Loss Due to Export Limitation(R.)" ]

/-- Fields where the maximum is taken. -/
def MAX_FIELDS : List String := ["Peak Power (kW)"]

/-- The additive-field loop of add_daily_to_month. -/
def roundAddFold (daily : MetricMap) (m : MetricMap) : MetricMap :=
  ADDITIVE_FIELDS.foldl
    (fun acc field => dset acc field
      (pyround (mget acc field 0 + mget daily field 0) 3)) m

/-- The max-field loop of add_daily_to_month. -/
def roundMaxFold (daily : MetricMap) (m : MetricMap) : MetricMap :=
  MAX_FIELDS.foldl
    (fun acc field => dset acc field
      (pyround (max (mget acc field 0) (mget daily field 0)) 3)) m

/-- Add daily values to monthly totals, then recalculate the
self-consumption rate when PV yield is positive. -/
def add_daily_to_month (monthly_data daily_data : MetricMap) : MetricMap :=
  let updated := roundAddFold daily_data monthly_data
  let updated := roundMaxFold daily_data updated
  let pv_yield := mget updated "PV Yield (kWh)" 0
  let self_consumption := mget updated "Self-consumption (kWh)" 0
  if 0 < pv_yield then
    dset updated "Self-consumption Rate (%)"
      (pyround (self_consumption / pv_yield * 100) 3)
  else
    updated

/-- Recalculate Consumption, Self-consumption and the daily self-consumption
rate from PV, Export and Import of the daily snapshot. -/
def derive_daily_fields (daily : MetricMap) : MetricMap :=
  let pv_today := mget daily "PV Yield (kWh)" 0
  let export_today := mget daily "Export (kWh)" 0
  let import_today := mget daily "Import (kWh)" 0
  let consumption_today :=
    if pv_today ≤ 0 then import_today
    else if 0 < export_today then pv_today - export_today + import_today
    else pv_today + import_today
  let d1 := dset daily "Consumption (kWh)" (pyround consumption_today 2)
  let self_consumption_today := pv_today - export_today
  let d2 := dset d1 "Self-consumption (kWh)" (pyround (max 0 self_consumption_today) 2)
  if 0 < pv_today then
    dset d2 "Self-consumption Rate (%)" (pyround (self_consumption_today / pv_today * 100) 2)
  else d2

/-- The additive-field accumulation loop for one child ledger. -/
def accAddFold (child : MetricMap) (m : MetricMap) : MetricMap :=
  ADDITIVE_FIELDS.foldl
    (fun acc field => dset acc field (mget acc field 0 + mget child field 0)) m

/-- The max-field accumulation loop for one child ledger. -/
def accMaxFold (child : MetricMap) (m : MetricMap) : MetricMap :=
  MAX_FIELDS.foldl
    (fun acc field => dset acc field (max (mget acc field 0) (mget child field 0))) m

/-- Accumulate all child ledgers into a totals mapping. -/
def accumulate_children (children : List (String × MetricMap)) (m : MetricMap) :
    MetricMap :=
  children.foldl (fun total p => accMaxFold p.2 (accAddFold p.2 total)) m

/-- Round every value of the mapping to 3 decimal places. -/
def round_all (m : MetricMap) : MetricMap := m.map (fun p => (p.1, pyround p.2 3))

/-- Recompute the self-consumption rate on a totals mapping, only when PV
yield is positive. -/
def recalc_rate (m : MetricMap) : MetricMap :=
  let pv_yield := mget m "PV Yield (kWh)" 0
  let self_consumption := mget m "Self-consumption (kWh)" 0
  if 0 < pv_yield then
    dset m "Self-consumption Rate (%)" (pyround (self_consumption / pv_yield * 100) 3)
  else m

/-- Python str.startswith: character-list prefix test (computable by
kernel reduction, equivalent to String.startsWith). -/
def startswith (s pre : String) : Bool := pre.data.isPrefixOf s.data

/-- Recalculate a lifetime year entry by summing all months in that year;
`none` when the year has no month. -/
def recalculate_lifetime_year (monthly_data : List (String × MetricMap))
    (year_str : String) : Option MetricMap :=
  let matching_months := monthly_data.filter (fun p => startswith p.1 year_str)
  if matching_months.isEmpty then none
  else some (recalc_rate (round_all (accumulate_children matching_months [])))

/-- Calculate grand totals across all years. -/
def calculate_all_time_totals (lifetime_data : List (String × MetricMap)) :
    MetricMap :=
  recalc_rate (round_all (accumulate_children lifetime_data []))

/-- Sum of one field over a list of child ledgers (missing values read 0). -/
def fieldSum (children : List (String × MetricMap)) (f : String) : ℚ :=
  (children.map (fun p => mget p.2 f 0)).sum

/-- Running maximum of one field over child ledgers, started at `v`. -/
def fieldMax (children : List (String × MetricMap)) (f : String) (v : ℚ) : ℚ :=
  children.foldl (fun a p => max a (mget p.2 f 0)) v

/-- The persisted starting-values record. -/
structure StartingValues where
  monthly : List (String × MetricMap)
  lifetime : List (String × MetricMap)
  last_run_date : String
  last_daily : MetricMap
  month_seeded : String
  previous_today : MetricMap
  previous_today_date : String
  yesterday : MetricMap
  yesterday_date : String

/-- Initialize the current month to an empty mapping when absent
(source lines 317-319). -/
def ensure_month (monthly : List (String × MetricMap)) (m : String) :
    List (String × MetricMap) :=
  if (dget monthly m).isSome then monthly else dset monthly m []

/-- Subtract every additive field of the previously applied daily from the
current month (source lines 332-334). -/
def subtract_last_daily (cur last_daily : MetricMap) : MetricMap :=
  ADDITIVE_FIELDS.foldl
    (fun acc field => dset acc field (mget acc field 0 - mget last_daily field 0)) cur

/-- The three-branch same-day / seed / new-day dispatch (source lines
322-339). Returns the updated monthly table, the updated seed flag, and the
skip-add flag. -/
def dispatch (s : StartingValues) (monthly0 : List (String × MetricMap))
    (m today_str : String) : List (String × MetricMap) × String × Bool :=
  if s.month_seeded = m ∧ s.last_run_date = today_str ∧ s.last_daily = [] then
    (monthly0, "", true)
  else if s.last_run_date = today_str ∧ s.last_daily ≠ [] then
    (dset monthly0 m (subtract_last_daily ((dget monthly0 m).getD []) s.last_daily),
      s.month_seeded, false)
  else if s.last_run_date ≠ "" ∧ s.last_run_date ≠ today_str then
    (monthly0, if s.month_seeded ≠ "" then "" else s.month_seeded, false)
  else (monthly0, s.month_seeded, false)

/-- Preserve lifetime-only fields on a recomputed year entry (source lines
360-364): keep every old key that the recompute did not produce. -/
def preserve_extra_fields (year_totals old : MetricMap) : MetricMap :=
  year_totals ++ old.filter (fun p => (dget year_totals p.1).isNone)

/-- Lexicographic comparison of character lists by code point, the order
Python sorted uses on strings. -/
def charListLe : List Char → List Char → Bool
  | [], _ => true
  | _ :: _, [] => false
  | a :: as, b :: bs => if a < b then true else if b < a then false else charListLe as bs

/-- Python string comparison (code-point lexicographic). -/
def strLe (a b : String) : Bool := charListLe a.data b.data

/-- Sorted distinct year prefixes of the month keys (source line 356). -/
def all_years (monthly : List (String × MetricMap)) : List String :=
  List.insertionSort (fun a b => strLe a b = true)
    ((monthly.map (fun p => p.1.take 4)).dedup)

/-- Recalculate lifetime for all years from monthly data (source lines
353-365). -/
def update_lifetime (monthly lifetime : List (String × MetricMap)) :
    List (String × MetricMap) :=
  (all_years monthly).foldl
    (fun lt yr =>
      match recalculate_lifetime_year monthly yr with
      | none => lt
      | some year_totals =>
          dset lt yr (preserve_extra_fields year_totals ((dget lt yr).getD [])))
    lifetime

/-- The monthly table after the branch dispatch and the merge step
(source lines 317-348). -/
def new_monthly (s : StartingValues) (daily_data : MetricMap) (today_str : String) :
    List (String × MetricMap) :=
  let current_month_key := today_str.take 7
  let monthly0 := ensure_month s.monthly current_month_key
  let disp := dispatch s monthly0 current_month_key today_str
  if disp.2.2 then disp.1
  else dset disp.1 current_month_key
    (add_daily_to_month ((dget disp.1 current_month_key).getD []) daily_data)

/-- The seed flag after the branch dispatch. -/
def new_seeded (s : StartingValues) (today_str : String) : String :=
  (dispatch s (ensure_month s.monthly (today_str.take 7)) (today_str.take 7)
    today_str).2.1

/-- One reconciliation run: the effect of main on the persisted state,
given the raw daily snapshot and the current date string (YYYY-MM-DD). -/
def reconcile (s : StartingValues) (raw_daily : MetricMap) (today_str : String) :
    StartingValues :=
  let daily_data := derive_daily_fields raw_daily
  { monthly := new_monthly s daily_data today_str
  , lifetime := update_lifetime (new_monthly s daily_data today_str) s.lifetime
  , last_run_date := today_str
  , last_daily := ADDITIVE_FIELDS.map (fun f => (f, mget daily_data f 0))
  , month_seeded := new_seeded s today_str
  , previous_today := daily_data
  , previous_today_date := today_str
  , yesterday :=
      if s.previous_today_date ≠ "" ∧ s.previous_today_date ≠ today_str then
        s.previous_today
      else s.yesterday
  , yesterday_date :=
      if s.previous_today_date ≠ "" ∧ s.previous_today_date ≠ today_str then
        s.previous_today_date
      else s.yesterday_date }

/-- The current-month ledger of a state. -/
def monthOf (s : StartingValues) (today_str : String) : MetricMap :=
  (dget s.monthly (today_str.take 7)).getD []

/-- Concrete seeded state for the C5 witness. -/
def c5S : StartingValues :=
  { monthly := [("2025-06", [("PV Yield (kWh)", 7)])]
  , lifetime := []
  , last_run_date := "2025-06-15"
  , last_daily := []
  , month_seeded := "2025-06"
  , previous_today := []
  , previous_today_date := ""
  , yesterday := []
  , yesterday_date := "" }

/-- Concrete state for the C9 witness, matching the spec scenario. -/
def c9S : StartingValues :=
  { monthly := []
  , lifetime := []
  , last_run_date := "2025-06-01"
  , last_daily := []
  , month_seeded := ""
  , previous_today := [("PV Yield (kWh)", 5)]
  , previous_today_date := "2025-06-01"
  , yesterday := []
  , yesterday_date := "" }

/-- Seeded state with a month value that is not a multiple of 0.001. -/
def c1S : StartingValues :=
  { monthly := [("2025-06", [("PV Yield (kWh)", (1:ℚ)/2500)])]
  , lifetime := []
  , last_run_date := "2025-06-15"
  , last_daily := []
  , month_seeded := "2025-06"
  , previous_today := []
  , previous_today_date := ""
  , yesterday := []
  , yesterday_date := "" }

/-- Daily snapshot for the C1 counterexample. -/
def c1d : MetricMap := [("PV Yield (kWh)", 1)]

/-- Trivial fresh state for the C1 witness. -/
def c1W : StartingValues :=
  { monthly := [], lifetime := [], last_run_date := "", last_daily := []
  , month_seeded := "", previous_today := [], previous_today_date := ""
  , yesterday := [], yesterday_date := "" }

/-- Fresh state for the C2 scenario. -/
def c2S0 : StartingValues :=
  { monthly := [], lifetime := [], last_run_date := "", last_daily := []
  , month_seeded := "", previous_today := [], previous_today_date := ""
  , yesterday := [], yesterday_date := "" }

/-- Day-1 snapshot of the C2 scenario. -/
def c2d1 : MetricMap :=
  [("PV Yield (kWh)", 100), ("Export (kWh)", 20), ("Import (kWh)", 5)]

/-- Day-2 snapshot of the C2 scenario. -/
def c2d2 : MetricMap :=
  [("PV Yield (kWh)", 50), ("Export (kWh)", 0), ("Import (kWh)", 10)]

/-- The financial configuration read from Financial config.json. -/
structure FinConfig where
  rates : List (String × MetricMap)
  seasons : List (String × String)
  tou_schedule : List (String × List (String × List String))
  export_credits : MetricMap

/-- Season selection by month number (source lines 398-399). -/
def season_of (cfg : FinConfig) (month : ℕ) : String :=
  (dget cfg.seasons (toString month)).getD "low_demand"

/-- Day-type selection by weekday (source lines 400-407). -/
def day_type_of (weekday : ℕ) : String :=
  if weekday < 5 then "weekday" else if weekday = 5 then "saturday" else "sunday"

/-- Get TOU rate and period for a specific hour and date
(source lines 396-412). -/
def get_tou_info (cfg : FinConfig) (hour month weekday : ℕ) : ℚ × String :=
  let season := season_of cfg month
  let day_type := day_type_of weekday
  let schedule := (dget ((dget cfg.tou_schedule season).getD []) day_type).getD []
  let period := schedule.getD hour "off_peak"
  let rate := mget ((dget cfg.rates season).getD []) period 0
  (rate, period)

/-- One hour of the savings accumulation loop (source lines 426-442). -/
def savings_step (cfg : FinConfig) (hourly_pattern : List ℚ)
    (pattern_total self_cons_kwh export_kwh : ℚ) (month weekday : ℕ)
    (acc : MetricMap × MetricMap) (h : ℕ) : MetricMap × MetricMap :=
  let fraction := hourly_pattern.getD h 0 / pattern_total
  let rate := (get_tou_info cfg h month weekday).1
  let period := (get_tou_info cfg h month weekday).2
  let pv1 :=
    if 0 < self_cons_kwh then
      let sc_kwh := self_cons_kwh * fraction
      let p := dset acc.1 period (mget acc.1 period 0 + sc_kwh * rate)
      dset p "total" (mget p "total" 0 + sc_kwh * rate)
    else acc.1
  let ex1 :=
    if 0 < export_kwh then
      let exp_kwh := export_kwh * fraction
      let credit_rate := mget cfg.export_credits period 0
      if 0 < credit_rate then
        let e := dset acc.2 period (mget acc.2 period 0 + exp_kwh * credit_rate)
        dset e "total" (mget e "total" 0 + exp_kwh * credit_rate)
      else acc.2
    else acc.2
  (pv1, ex1)

/-- Calculate PV savings (TOU) and export credits for one day
(source lines 414-446). The 24-slot reference shape is indexed with a
0 default for out-of-range hours. -/
def calc_day_savings (cfg : FinConfig) (daily_hourly : List (String × List ℚ))
    (self_cons_kwh export_kwh : ℚ) (mmdd : String) (month weekday : ℕ) :
    MetricMap × MetricMap :=
  let hourly_pattern := (dget daily_hourly mmdd).getD (List.replicate 24 0)
  let pattern_total := hourly_pattern.sum
  let pv_sav : MetricMap :=
    [("peak", 0), ("standard", 0), ("off_peak", 0), ("total", 0)]
  let exp_sav : MetricMap := [("standard", 0), ("off_peak", 0), ("total", 0)]
  if pattern_total ≤ 0 then (pv_sav, exp_sav)
  else
    let res := (List.range 24).foldl
      (savings_step cfg hourly_pattern pattern_total self_cons_kwh export_kwh
        month weekday) (pv_sav, exp_sav)
    (res.1.map (fun p => (p.1, pyround p.2 2)),
      res.2.map (fun p => (p.1, pyround p.2 2)))

/-- The hourly self-consumption allocation computed inside the savings loop:
the day total times the reference-shape fraction of the hour. -/
def sc_allocation (hourly_pattern : List ℚ) (self_cons_kwh : ℚ) (h : ℕ) : ℚ :=
  self_cons_kwh * (hourly_pattern.getD h 0 / hourly_pattern.sum)

/-- The reference shape of the C8 scenario: two nonzero hours of equal
weight at hours 10 and 11. -/
def c8shape : List ℚ :=
  [0, 0, 0, 0, 0, 0, 0, 0, 0, 0, 10, 10, 0, 0, 0, 0, 0, 0, 0, 0, 0, 0, 0, 0]

/-! Theorems about the embedded program. -/

theorem roundHalfEven_intCast (z : ℤ) : roundHalfEven (z : ℚ) = z := by
  simp only [roundHalfEven, Int.floor_intCast, sub_self]
  norm_num

theorem roundHalfEven_zero : roundHalfEven 0 = 0 := by
  simpa using roundHalfEven_intCast 0

theorem pyround_idem (q : ℚ) (n : ℕ) : pyround (pyround q n) n = pyround q n := by
  have hD : ((10 : ℚ) ^ n) ≠ 0 := by positivity
  simp only [pyround]
  rw [div_mul_cancel₀ _ hD, roundHalfEven_intCast]

theorem pyround_zero (n : ℕ) : pyround 0 n = 0 := by
  simp [pyround, roundHalfEven_zero]

theorem roundHalfEven_nonneg {q : ℚ} (h : 0 ≤ q) : 0 ≤ roundHalfEven q := by
  have hf : (0 : ℤ) ≤ ⌊q⌋ := Int.le_floor.mpr (by exact_mod_cast h)
  simp only [roundHalfEven]
  split
  · exact hf
  · split
    · omega
    · split
      · exact hf
      · omega

theorem pyround_nonneg {q : ℚ} (n : ℕ) (h : 0 ≤ q) : 0 ≤ pyround q n := by
  have hD : (0 : ℚ) < (10 : ℚ) ^ n := by positivity
  have h2 : (0 : ℤ) ≤ roundHalfEven (q * ((10 : ℚ) ^ n)) :=
    roundHalfEven_nonneg (by positivity)
  exact div_nonneg (by exact_mod_cast h2) (le_of_lt hD)

theorem dget_dset_self {α : Type} (l : List (String × α)) (k : String) (v : α) :
    dget (dset l k v) k = some v := by
  induction l with
  | nil => simp [dget, dset]
  | cons p rest ih =>
      obtain ⟨k', v'⟩ := p
      by_cases h : k' = k
      · simp [dset, dget, h]
      · simp [dset, dget, h, ih]

theorem dget_dset_ne {α : Type} (l : List (String × α)) (k k' : String) (v : α)
    (h : k' ≠ k) : dget (dset l k v) k' = dget l k' := by
  have h' : k ≠ k' := Ne.symm h
  induction l with
  | nil => simp [dget, dset, h']
  | cons p rest ih =>
      obtain ⟨k₀, v₀⟩ := p
      by_cases h0 : k₀ = k
      · subst h0
        simp [dset, dget, h']
      · simp [dset, dget, h0, ih]

theorem mget_dset_self (m : MetricMap) (k : String) (v d : ℚ) :
    mget (dset m k v) k d = v := by
  simp [mget, dget_dset_self]

theorem mget_dset_ne (m : MetricMap) (k k' : String) (v d : ℚ) (h : k' ≠ k) :
    mget (dset m k v) k' d = mget m k' d := by
  simp [mget, dget_dset_ne _ _ _ _ h]

theorem dget_foldl_not_mem (H : String → ℚ → ℚ) (fields : List String)
    (m : MetricMap) (k : String) (hk : k ∉ fields) :
    dget (fields.foldl (fun acc f => dset acc f (H f (mget acc f 0))) m) k
      = dget m k := by
  induction fields generalizing m with
  | nil => rfl
  | cons f fs ih =>
      have hkf : k ≠ f := fun h => hk (h ▸ List.mem_cons_self f fs)
      have hkfs : k ∉ fs := fun h => hk (List.mem_cons_of_mem _ h)
      simp only [List.foldl_cons]
      rw [ih _ hkfs, dget_dset_ne _ _ _ _ hkf]

theorem dget_foldl_mem (H : String → ℚ → ℚ) (fields : List String)
    (m : MetricMap) (k : String) (hnd : fields.Nodup) (hk : k ∈ fields) :
    dget (fields.foldl (fun acc f => dset acc f (H f (mget acc f 0))) m) k
      = some (H k (mget m k 0)) := by
  induction fields generalizing m with
  | nil => cases hk
  | cons f fs ih =>
      simp only [List.foldl_cons]
      rcases List.mem_cons.mp hk with h | h
      · subst h
        have hkfs : k ∉ fs := (List.nodup_cons.mp hnd).1
        rw [dget_foldl_not_mem _ _ _ _ hkfs, dget_dset_self]
      · have hffs : f ∉ fs := (List.nodup_cons.mp hnd).1
        have hkf : k ≠ f := fun hh => hffs (hh ▸ h)
        rw [ih _ (List.nodup_cons.mp hnd).2 h, mget_dset_ne _ _ _ _ _ hkf]

theorem dget_foldl_isSome (H : String → ℚ → ℚ) (fields : List String)
    (m : MetricMap) (k : String)
    (hk : (dget m k).isSome ∨ k ∈ fields) :
    (dget (fields.foldl (fun acc f => dset acc f (H f (mget acc f 0))) m) k).isSome := by
  induction fields generalizing m with
  | nil =>
      rcases hk with h | h
      · exact h
      · cases h
  | cons f fs ih =>
      simp only [List.foldl_cons]
      by_cases hkf : k = f
      · subst hkf
        refine ih _ (Or.inl ?_)
        rw [dget_dset_self]
        rfl
      · refine ih _ ?_
        rcases hk with h | h
        · exact Or.inl (by rw [dget_dset_ne _ _ _ _ hkf]; exact h)
        · rcases List.mem_cons.mp h with h' | h'
          · exact absurd h' hkf
          · exact Or.inr h'

theorem additive_nodup : ADDITIVE_FIELDS.Nodup := by decide

theorem max_nodup : MAX_FIELDS.Nodup := by decide

theorem additive_not_special :
    ∀ f ∈ ADDITIVE_FIELDS, f ∉ MAX_FIELDS ∧ f ≠ "Self-consumption Rate (%)" := by
  decide

theorem max_not_special :
    ∀ f ∈ MAX_FIELDS, f ∉ ADDITIVE_FIELDS ∧ f ≠ "Self-consumption Rate (%)" := by
  decide

theorem rate_not_combined :
    "Self-consumption Rate (%)" ∉ ADDITIVE_FIELDS ∧
    "Self-consumption Rate (%)" ∉ MAX_FIELDS := by
  decide

theorem mget_roundAddFold_mem (daily m : MetricMap) (f : String) (d : ℚ)
    (hf : f ∈ ADDITIVE_FIELDS) :
    mget (roundAddFold daily m) f d = pyround (mget m f 0 + mget daily f 0) 3 := by
  have h := dget_foldl_mem (fun fl x => pyround (x + mget daily fl 0) 3)
    ADDITIVE_FIELDS m f additive_nodup hf
  show (dget (roundAddFold daily m) f).getD d = _
  rw [show roundAddFold daily m
      = ADDITIVE_FIELDS.foldl (fun acc fl => dset acc fl
          ((fun fl x => pyround (x + mget daily fl 0) 3) fl (mget acc fl 0))) m from rfl]
  rw [h]
  rfl

theorem mget_roundAddFold_not_mem (daily m : MetricMap) (f : String) (d : ℚ)
    (hf : f ∉ ADDITIVE_FIELDS) :
    mget (roundAddFold daily m) f d = mget m f d := by
  have h := dget_foldl_not_mem (fun fl x => pyround (x + mget daily fl 0) 3)
    ADDITIVE_FIELDS m f hf
  show (dget (roundAddFold daily m) f).getD d = _
  rw [show roundAddFold daily m
      = ADDITIVE_FIELDS.foldl (fun acc fl => dset acc fl
          ((fun fl x => pyround (x + mget daily fl 0) 3) fl (mget acc fl 0))) m from rfl]
  rw [h]
  rfl

theorem mget_roundMaxFold_mem (daily m : MetricMap) (f : String) (d : ℚ)
    (hf : f ∈ MAX_FIELDS) :
    mget (roundMaxFold daily m) f d = pyround (max (mget m f 0) (mget daily f 0)) 3 := by
  have h := dget_foldl_mem (fun fl x => pyround (max x (mget daily fl 0)) 3)
    MAX_FIELDS m f max_nodup hf
  show (dget (roundMaxFold daily m) f).getD d = _
  rw [show roundMaxFold daily m
      = MAX_FIELDS.foldl (fun acc fl => dset acc fl
          ((fun fl x => pyround (max x (mget daily fl 0)) 3) fl (mget acc fl 0))) m from rfl]
  rw [h]
  rfl

theorem mget_roundMaxFold_not_mem (daily m : MetricMap) (f : String) (d : ℚ)
    (hf : f ∉ MAX_FIELDS) :
    mget (roundMaxFold daily m) f d = mget m f d := by
  have h := dget_foldl_not_mem (fun fl x => pyround (max x (mget daily fl 0)) 3)
    MAX_FIELDS m f hf
  show (dget (roundMaxFold daily m) f).getD d = _
  rw [show roundMaxFold daily m
      = MAX_FIELDS.foldl (fun acc fl => dset acc fl
          ((fun fl x => pyround (max x (mget daily fl 0)) 3) fl (mget acc fl 0))) m from rfl]
  rw [h]
  rfl

/-- Additive fields of the merged month: previous value plus daily value,
rounded to 3 decimal places. -/
theorem mget_add_daily_additive (m d : MetricMap) (f : String)
    (hf : f ∈ ADDITIVE_FIELDS) :
    mget (add_daily_to_month m d) f 0 = pyround (mget m f 0 + mget d f 0) 3 := by
  obtain ⟨hmax, hrate⟩ := additive_not_special f hf
  unfold add_daily_to_month
  dsimp only
  split
  · rw [mget_dset_ne _ _ _ _ _ hrate, mget_roundMaxFold_not_mem _ _ _ _ hmax,
      mget_roundAddFold_mem _ _ _ _ hf]
  · rw [mget_roundMaxFold_not_mem _ _ _ _ hmax, mget_roundAddFold_mem _ _ _ _ hf]

/-- Max fields of the merged month: maximum of previous and daily value,
rounded to 3 decimal places. -/
theorem mget_add_daily_max (m d : MetricMap) (f : String)
    (hf : f ∈ MAX_FIELDS) :
    mget (add_daily_to_month m d) f 0 = pyround (max (mget m f 0) (mget d f 0)) 3 := by
  obtain ⟨hadd, hrate⟩ := max_not_special f hf
  unfold add_daily_to_month
  dsimp only
  split
  · rw [mget_dset_ne _ _ _ _ _ hrate, mget_roundMaxFold_mem _ _ _ _ hf,
      mget_roundAddFold_not_mem _ _ _ _ hadd]
  · rw [mget_roundMaxFold_mem _ _ _ _ hf, mget_roundAddFold_not_mem _ _ _ _ hadd]

theorem mget_derive_consumption (daily : MetricMap) :
    mget (derive_daily_fields daily) "Consumption (kWh)" 0 =
      pyround
        (if mget daily "PV Yield (kWh)" 0 ≤ 0 then mget daily "Import (kWh)" 0
         else if 0 < mget daily "Export (kWh)" 0 then
           mget daily "PV Yield (kWh)" 0 - mget daily "Export (kWh)" 0 + mget daily "Import (kWh)" 0
         else mget daily "PV Yield (kWh)" 0 + mget daily "Import (kWh)" 0) 2 := by
  unfold derive_daily_fields
  dsimp only
  split
  · rw [mget_dset_ne _ _ _ _ _ (by decide), mget_dset_ne _ _ _ _ _ (by decide),
      mget_dset_self]
  · rw [mget_dset_ne _ _ _ _ _ (by decide), mget_dset_self]

theorem mget_derive_self_consumption (daily : MetricMap) :
    mget (derive_daily_fields daily) "Self-consumption (kWh)" 0 =
      pyround (max 0 (mget daily "PV Yield (kWh)" 0 - mget daily "Export (kWh)" 0)) 2 := by
  unfold derive_daily_fields
  dsimp only
  split
  · rw [mget_dset_ne _ _ _ _ _ (by decide), mget_dset_self]
  · rw [mget_dset_self]

theorem derive_self_consumption_nonneg (daily : MetricMap) :
    0 ≤ mget (derive_daily_fields daily) "Self-consumption (kWh)" 0 := by
  rw [mget_derive_self_consumption]
  exact pyround_nonneg _ (le_max_left _ _)

theorem mget_accAddFold_mem (child m : MetricMap) (f : String) (d : ℚ)
    (hf : f ∈ ADDITIVE_FIELDS) :
    mget (accAddFold child m) f d = mget m f 0 + mget child f 0 := by
  have h := dget_foldl_mem (fun fl x => x + mget child fl 0)
    ADDITIVE_FIELDS m f additive_nodup hf
  show (dget (accAddFold child m) f).getD d = _
  rw [show accAddFold child m
      = ADDITIVE_FIELDS.foldl (fun acc fl => dset acc fl
          ((fun fl x => x + mget child fl 0) fl (mget acc fl 0))) m from rfl]
  rw [h]
  rfl

theorem mget_accAddFold_not_mem (child m : MetricMap) (f : String) (d : ℚ)
    (hf : f ∉ ADDITIVE_FIELDS) :
    mget (accAddFold child m) f d = mget m f d := by
  have h := dget_foldl_not_mem (fun fl x => x + mget child fl 0)
    ADDITIVE_FIELDS m f hf
  show (dget (accAddFold child m) f).getD d = _
  rw [show accAddFold child m
      = ADDITIVE_FIELDS.foldl (fun acc fl => dset acc fl
          ((fun fl x => x + mget child fl 0) fl (mget acc fl 0))) m from rfl]
  rw [h]
  rfl

theorem mget_accMaxFold_mem (child m : MetricMap) (f : String) (d : ℚ)
    (hf : f ∈ MAX_FIELDS) :
    mget (accMaxFold child m) f d = max (mget m f 0) (mget child f 0) := by
  have h := dget_foldl_mem (fun fl x => max x (mget child fl 0))
    MAX_FIELDS m f max_nodup hf
  show (dget (accMaxFold child m) f).getD d = _
  rw [show accMaxFold child m
      = MAX_FIELDS.foldl (fun acc fl => dset acc fl
          ((fun fl x => max x (mget child fl 0)) fl (mget acc fl 0))) m from rfl]
  rw [h]
  rfl

theorem mget_accMaxFold_not_mem (child m : MetricMap) (f : String) (d : ℚ)
    (hf : f ∉ MAX_FIELDS) :
    mget (accMaxFold child m) f d = mget m f d := by
  have h := dget_foldl_not_mem (fun fl x => max x (mget child fl 0))
    MAX_FIELDS m f hf
  show (dget (accMaxFold child m) f).getD d = _
  rw [show accMaxFold child m
      = MAX_FIELDS.foldl (fun acc fl => dset acc fl
          ((fun fl x => max x (mget child fl 0)) fl (mget acc fl 0))) m from rfl]
  rw [h]
  rfl

theorem mget_accumulate_children_additive (children : List (String × MetricMap))
    (m : MetricMap) (f : String) (hf : f ∈ ADDITIVE_FIELDS) :
    mget (accumulate_children children m) f 0 = mget m f 0 + fieldSum children f := by
  induction children generalizing m with
  | nil => simp [accumulate_children, fieldSum]
  | cons p ps ih =>
      have hmax : f ∉ MAX_FIELDS := (additive_not_special f hf).1
      show mget (accumulate_children ps (accMaxFold p.2 (accAddFold p.2 m))) f 0 = _
      rw [ih, mget_accMaxFold_not_mem _ _ _ _ hmax, mget_accAddFold_mem _ _ _ _ hf]
      simp [fieldSum, add_assoc]

theorem mget_accumulate_children_max (children : List (String × MetricMap))
    (m : MetricMap) (f : String) (hf : f ∈ MAX_FIELDS) :
    mget (accumulate_children children m) f 0 = fieldMax children f (mget m f 0) := by
  induction children generalizing m with
  | nil => simp [accumulate_children, fieldMax]
  | cons p ps ih =>
      have hadd : f ∉ ADDITIVE_FIELDS := (max_not_special f hf).1
      show mget (accumulate_children ps (accMaxFold p.2 (accAddFold p.2 m))) f 0 = _
      rw [ih, mget_accMaxFold_mem _ _ _ _ hf, mget_accAddFold_not_mem _ _ _ _ hadd]
      rfl

theorem dget_round_all (m : MetricMap) (k : String) :
    dget (round_all m) k = (dget m k).map (fun v => pyround v 3) := by
  induction m with
  | nil => rfl
  | cons p rest ih =>
      obtain ⟨k₀, v₀⟩ := p
      by_cases h : k₀ = k
      · simp [round_all, dget, h]
      · simpa [round_all, dget, h] using ih

theorem mget_round_all (m : MetricMap) (k : String) :
    mget (round_all m) k 0 = pyround (mget m k 0) 3 := by
  unfold mget
  rw [dget_round_all]
  cases dget m k with
  | none => simp [pyround_zero]
  | some v => rfl

theorem mget_recalc_rate_not_rate (m : MetricMap) (k : String) (d : ℚ)
    (h : k ≠ "Self-consumption Rate (%)") :
    mget (recalc_rate m) k d = mget m k d := by
  unfold recalc_rate
  dsimp only
  split
  · rw [mget_dset_ne _ _ _ _ _ h]
  · rfl

theorem dget_recalc_rate_not_rate (m : MetricMap) (k : String)
    (h : k ≠ "Self-consumption Rate (%)") :
    dget (recalc_rate m) k = dget m k := by
  unfold recalc_rate
  dsimp only
  split
  · rw [dget_dset_ne _ _ _ _ h]
  · rfl

/-- Additive fields of a recalculated year: the exact month sum, rounded to
3 decimal places. -/
theorem recalc_year_additive (monthly_data : List (String × MetricMap))
    (year_str : String) (f : String) (hf : f ∈ ADDITIVE_FIELDS)
    (hne : (monthly_data.filter (fun p => startswith p.1 year_str)) ≠ []) :
    mget ((recalculate_lifetime_year monthly_data year_str).getD []) f 0 =
      pyround (fieldSum (monthly_data.filter (fun p => startswith p.1 year_str)) f) 3 := by
  unfold recalculate_lifetime_year
  dsimp only
  rw [if_neg (by simpa [List.isEmpty_iff] using hne)]
  rw [Option.getD_some, mget_recalc_rate_not_rate _ _ _ (additive_not_special f hf).2,
    mget_round_all, mget_accumulate_children_additive _ _ _ hf]
  simp [mget, dget]

/-- Max fields of a recalculated year: the running maximum over the months
(started at 0), rounded to 3 decimal places. -/
theorem recalc_year_max (monthly_data : List (String × MetricMap))
    (year_str : String) (f : String) (hf : f ∈ MAX_FIELDS)
    (hne : (monthly_data.filter (fun p => startswith p.1 year_str)) ≠ []) :
    mget ((recalculate_lifetime_year monthly_data year_str).getD []) f 0 =
      pyround (fieldMax (monthly_data.filter (fun p => startswith p.1 year_str)) f 0) 3 := by
  unfold recalculate_lifetime_year
  dsimp only
  rw [if_neg (by simpa [List.isEmpty_iff] using hne)]
  rw [Option.getD_some, mget_recalc_rate_not_rate _ _ _ (max_not_special f hf).2,
    mget_round_all, mget_accumulate_children_max _ _ _ hf]
  simp [mget, dget]

theorem mget_subtract_mem (cur last_daily : MetricMap) (f : String) (d : ℚ)
    (hf : f ∈ ADDITIVE_FIELDS) :
    mget (subtract_last_daily cur last_daily) f d
      = mget cur f 0 - mget last_daily f 0 := by
  have h := dget_foldl_mem (fun fl x => x - mget last_daily fl 0)
    ADDITIVE_FIELDS cur f additive_nodup hf
  show (dget (subtract_last_daily cur last_daily) f).getD d = _
  rw [show subtract_last_daily cur last_daily
      = ADDITIVE_FIELDS.foldl (fun acc fl => dset acc fl
          ((fun fl x => x - mget last_daily fl 0) fl (mget acc fl 0))) cur from rfl]
  rw [h]
  rfl

theorem dget_map_pairs_mem (l : List String) (g : String → ℚ) (k : String)
    (hk : k ∈ l) :
    dget (l.map (fun f => (f, g f))) k = some (g k) := by
  induction l with
  | nil => cases hk
  | cons f fs ih =>
      by_cases h : f = k
      · subst h
        simp [dget]
      · rcases List.mem_cons.mp hk with h' | h'
        · exact absurd h'.symm h
        · simpa [dget, h] using ih h'

theorem mget_map_pairs_mem (l : List String) (g : String → ℚ) (k : String)
    (d : ℚ) (hk : k ∈ l) :
    mget (l.map (fun f => (f, g f))) k d = g k := by
  simp [mget, dget_map_pairs_mem l g k hk]

theorem ensure_month_of_isSome (monthly : List (String × MetricMap))
    (m : String) (h : (dget monthly m).isSome) :
    ensure_month monthly m = monthly := by
  simp [ensure_month, h]

theorem dispatch_seed (s : StartingValues) (monthly0 : List (String × MetricMap))
    (m t : String)
    (h : s.month_seeded = m ∧ s.last_run_date = t ∧ s.last_daily = []) :
    dispatch s monthly0 m t = (monthly0, "", true) := by
  unfold dispatch
  rw [if_pos h]

theorem dispatch_same_day (s : StartingValues) (monthly0 : List (String × MetricMap))
    (m t : String)
    (h1 : ¬(s.month_seeded = m ∧ s.last_run_date = t ∧ s.last_daily = []))
    (h2 : s.last_run_date = t ∧ s.last_daily ≠ []) :
    dispatch s monthly0 m t =
      (dset monthly0 m (subtract_last_daily ((dget monthly0 m).getD []) s.last_daily),
        s.month_seeded, false) := by
  unfold dispatch
  rw [if_neg h1, if_pos h2]

theorem dispatch_skip_iff (s : StartingValues) (monthly0 : List (String × MetricMap))
    (m t : String) :
    (dispatch s monthly0 m t).2.2 = true ↔
      (s.month_seeded = m ∧ s.last_run_date = t ∧ s.last_daily = []) := by
  unfold dispatch
  split
  · simpa
  · rename_i h
    split
    · simpa using h
    · split
      · simpa using h
      · simpa using h

theorem reconcile_last_run_date (s : StartingValues) (raw : MetricMap)
    (t : String) : (reconcile s raw t).last_run_date = t := rfl

theorem reconcile_last_daily (s : StartingValues) (raw : MetricMap) (t : String) :
    (reconcile s raw t).last_daily
      = ADDITIVE_FIELDS.map (fun f => (f, mget (derive_daily_fields raw) f 0)) := rfl

theorem reconcile_last_daily_ne_nil (s : StartingValues) (raw : MetricMap)
    (t : String) : (reconcile s raw t).last_daily ≠ [] := by
  rw [reconcile_last_daily]
  simp [ADDITIVE_FIELDS]

theorem reconcile_previous_today (s : StartingValues) (raw : MetricMap)
    (t : String) : (reconcile s raw t).previous_today = derive_daily_fields raw := rfl

theorem reconcile_previous_today_date (s : StartingValues) (raw : MetricMap)
    (t : String) : (reconcile s raw t).previous_today_date = t := rfl

theorem reconcile_monthly (s : StartingValues) (raw : MetricMap) (t : String) :
    (reconcile s raw t).monthly = new_monthly s (derive_daily_fields raw) t := by
  simp only [reconcile]

theorem reconcile_lifetime (s : StartingValues) (raw : MetricMap) (t : String) :
    (reconcile s raw t).lifetime
      = update_lifetime (new_monthly s (derive_daily_fields raw) t) s.lifetime := by
  simp only [reconcile]

theorem reconcile_month_seeded (s : StartingValues) (raw : MetricMap) (t : String) :
    (reconcile s raw t).month_seeded = new_seeded s t := by
  simp only [reconcile]

theorem reconcile_yesterday_rotate (s : StartingValues) (raw : MetricMap)
    (t : String) (h1 : s.previous_today_date ≠ "") (h2 : s.previous_today_date ≠ t) :
    (reconcile s raw t).yesterday = s.previous_today ∧
    (reconcile s raw t).yesterday_date = s.previous_today_date := by
  unfold reconcile
  dsimp only
  rw [if_pos ⟨h1, h2⟩, if_pos ⟨h1, h2⟩]
  exact ⟨rfl, rfl⟩

theorem dget_append_of_isSome {a b : List (String × ℚ)} {k : String}
    (h : (dget a k).isSome) : dget (a ++ b) k = dget a k := by
  induction a with
  | nil => simp [dget] at h
  | cons p rest ih =>
      obtain ⟨k₀, v₀⟩ := p
      by_cases h0 : k₀ = k
      · simp [dget, h0]
      · simp only [List.cons_append, dget, h0, if_false] at h ⊢
        exact ih h

theorem dget_append_of_none {a b : List (String × ℚ)} {k : String}
    (h : dget a k = none) : dget (a ++ b) k = dget b k := by
  induction a with
  | nil => rfl
  | cons p rest ih =>
      obtain ⟨k₀, v₀⟩ := p
      by_cases h0 : k₀ = k
      · simp [dget, h0] at h
      · simp only [List.cons_append, dget, h0, if_false] at h ⊢
        exact ih h

theorem dget_filter_unknown (yt old : MetricMap) (k : String)
    (h : dget yt k = none) :
    dget (old.filter (fun p => (dget yt p.1).isNone)) k = dget old k := by
  induction old with
  | nil => rfl
  | cons p rest ih =>
      obtain ⟨k₀, v₀⟩ := p
      by_cases h0 : k₀ = k
      · subst h0
        simp [List.filter_cons, h, dget, ih]
      · by_cases hp : (dget yt k₀).isNone
        · simp [List.filter_cons, hp, dget, h0, ih]
        · simp [List.filter_cons, hp, dget, h0, ih]

theorem dget_preserve_of_isSome (yt old : MetricMap) (k : String)
    (h : (dget yt k).isSome) :
    dget (preserve_extra_fields yt old) k = dget yt k :=
  dget_append_of_isSome h

theorem dget_preserve_of_none (yt old : MetricMap) (k : String)
    (h : dget yt k = none) :
    dget (preserve_extra_fields yt old) k = dget old k := by
  unfold preserve_extra_fields
  rw [dget_append_of_none h, dget_filter_unknown _ _ _ h]

theorem all_years_nodup (monthly : List (String × MetricMap)) :
    (all_years monthly).Nodup :=
  ((List.perm_insertionSort _ _).nodup_iff).mpr (List.nodup_dedup _)

theorem mem_all_years (monthly : List (String × MetricMap)) (Y : String) :
    Y ∈ all_years monthly ↔ Y ∈ monthly.map (fun p => p.1.take 4) := by
  rw [all_years, (List.perm_insertionSort _ _).mem_iff, List.mem_dedup]

theorem dget_update_fold_not_mem (monthly : List (String × MetricMap))
    (ys : List String) (lt : List (String × MetricMap)) (Y : String)
    (hY : Y ∉ ys) :
    dget (ys.foldl
      (fun lt yr =>
        match recalculate_lifetime_year monthly yr with
        | none => lt
        | some year_totals =>
            dset lt yr (preserve_extra_fields year_totals ((dget lt yr).getD [])))
      lt) Y = dget lt Y := by
  induction ys generalizing lt with
  | nil => rfl
  | cons y ys ih =>
      have hYy : Y ≠ y := fun h => hY (h ▸ List.mem_cons_self y ys)
      have hYys : Y ∉ ys := fun h => hY (List.mem_cons_of_mem _ h)
      simp only [List.foldl_cons]
      rw [ih _ hYys]
      cases recalculate_lifetime_year monthly y with
      | none => rfl
      | some yt => exact dget_dset_ne _ _ _ _ hYy

theorem dget_update_fold_mem (monthly : List (String × MetricMap))
    (ys : List String) (lt : List (String × MetricMap)) (Y : String)
    (hnd : ys.Nodup) (hY : Y ∈ ys) :
    dget (ys.foldl
      (fun lt yr =>
        match recalculate_lifetime_year monthly yr with
        | none => lt
        | some year_totals =>
            dset lt yr (preserve_extra_fields year_totals ((dget lt yr).getD [])))
      lt) Y =
      (match recalculate_lifetime_year monthly Y with
       | none => dget lt Y
       | some yt => some (preserve_extra_fields yt ((dget lt Y).getD []))) := by
  induction ys generalizing lt with
  | nil => cases hY
  | cons y ys ih =>
      simp only [List.foldl_cons]
      rcases List.mem_cons.mp hY with h | h
      · subst h
        have hYys : Y ∉ ys := (List.nodup_cons.mp hnd).1
        rw [dget_update_fold_not_mem _ _ _ _ hYys]
        cases hr : recalculate_lifetime_year monthly Y with
        | none => simp [hr]
        | some yt => simp [hr, dget_dset_self]
      · have hyys : y ∉ ys := (List.nodup_cons.mp hnd).1
        have hYy : Y ≠ y := fun hh => hyys (hh ▸ h)
        rw [ih _ (List.nodup_cons.mp hnd).2 h]
        have hlt : dget (match recalculate_lifetime_year monthly y with
            | none => lt
            | some year_totals =>
                dset lt y (preserve_extra_fields year_totals ((dget lt y).getD []))) Y
            = dget lt Y := by
          cases recalculate_lifetime_year monthly y with
          | none => rfl
          | some yt => exact dget_dset_ne _ _ _ _ hYy
        rw [hlt]

theorem dget_update_lifetime (monthly lifetime : List (String × MetricMap))
    (Y : String) (hY : Y ∈ all_years monthly) :
    dget (update_lifetime monthly lifetime) Y =
      (match recalculate_lifetime_year monthly Y with
       | none => dget lifetime Y
       | some yt => some (preserve_extra_fields yt ((dget lifetime Y).getD []))) :=
  dget_update_fold_mem monthly _ lifetime Y (all_years_nodup monthly) hY

theorem dget_accAddFold_isSome (child m : MetricMap) (k : String)
    (h : (dget m k).isSome ∨ k ∈ ADDITIVE_FIELDS) :
    (dget (accAddFold child m) k).isSome := by
  have hh := dget_foldl_isSome (fun fl x => x + mget child fl 0)
    ADDITIVE_FIELDS m k h
  rw [show accAddFold child m
      = ADDITIVE_FIELDS.foldl (fun acc fl => dset acc fl
          ((fun fl x => x + mget child fl 0) fl (mget acc fl 0))) m from rfl]
  exact hh

theorem dget_accMaxFold_isSome (child m : MetricMap) (k : String)
    (h : (dget m k).isSome ∨ k ∈ MAX_FIELDS) :
    (dget (accMaxFold child m) k).isSome := by
  have hh := dget_foldl_isSome (fun fl x => max x (mget child fl 0))
    MAX_FIELDS m k h
  rw [show accMaxFold child m
      = MAX_FIELDS.foldl (fun acc fl => dset acc fl
          ((fun fl x => max x (mget child fl 0)) fl (mget acc fl 0))) m from rfl]
  exact hh

theorem dget_accumulate_isSome (children : List (String × MetricMap))
    (m : MetricMap) (k : String)
    (h : (dget m k).isSome ∨
      ((k ∈ ADDITIVE_FIELDS ∨ k ∈ MAX_FIELDS) ∧ children ≠ [])) :
    (dget (accumulate_children children m) k).isSome := by
  induction children generalizing m with
  | nil =>
      rcases h with h | ⟨_, hne⟩
      · exact h
      · exact absurd rfl hne
  | cons p ps ih =>
      show (dget (accumulate_children ps (accMaxFold p.2 (accAddFold p.2 m))) k).isSome
      refine ih _ (Or.inl ?_)
      rcases h with h | ⟨hf | hf, _⟩
      · exact dget_accMaxFold_isSome _ _ _ (Or.inl (dget_accAddFold_isSome _ _ _ (Or.inl h)))
      · exact dget_accMaxFold_isSome _ _ _ (Or.inl (dget_accAddFold_isSome _ _ _ (Or.inr hf)))
      · exact dget_accMaxFold_isSome _ _ _ (Or.inr hf)

theorem dget_round_all_isSome (m : MetricMap) (k : String)
    (h : (dget m k).isSome) : (dget (round_all m) k).isSome := by
  rw [dget_round_all]
  simpa using h

theorem dget_recalc_year_isSome (monthly : List (String × MetricMap))
    (Y f : String) (hf : f ∈ ADDITIVE_FIELDS ∨ f ∈ MAX_FIELDS)
    (hne : monthly.filter (fun p => startswith p.1 Y) ≠ []) :
    (dget ((recalculate_lifetime_year monthly Y).getD []) f).isSome := by
  have hrate : f ≠ "Self-consumption Rate (%)" := by
    rcases hf with hf | hf
    · exact (additive_not_special f hf).2
    · exact (max_not_special f hf).2
  unfold recalculate_lifetime_year
  dsimp only
  rw [if_neg (by simpa [List.isEmpty_iff] using hne)]
  rw [Option.getD_some, dget_recalc_rate_not_rate _ _ hrate]
  exact dget_round_all_isSome _ _
    (dget_accumulate_isSome _ _ _ (Or.inr ⟨hf, hne⟩))

theorem mget_update_lifetime_additive (monthly lifetime : List (String × MetricMap))
    (Y f : String) (hY : Y ∈ all_years monthly) (hf : f ∈ ADDITIVE_FIELDS)
    (hne : monthly.filter (fun p => startswith p.1 Y) ≠ []) :
    mget ((dget (update_lifetime monthly lifetime) Y).getD []) f 0
      = pyround (fieldSum (monthly.filter (fun p => startswith p.1 Y)) f) 3 := by
  have hsome : recalculate_lifetime_year monthly Y
      = some (recalc_rate (round_all (accumulate_children
          (monthly.filter (fun p => startswith p.1 Y)) []))) := by
    unfold recalculate_lifetime_year
    dsimp only
    rw [if_neg (by simpa [List.isEmpty_iff] using hne)]
  have hpres : (dget ((recalculate_lifetime_year monthly Y).getD []) f).isSome :=
    dget_recalc_year_isSome monthly Y f (Or.inl hf) hne
  rw [dget_update_lifetime monthly lifetime Y hY, hsome]
  rw [hsome] at hpres
  simp only [Option.getD_some] at hpres ⊢
  unfold mget
  rw [dget_preserve_of_isSome _ _ _ hpres]
  have := recalc_year_additive monthly Y f hf hne
  rw [hsome] at this
  simpa [mget] using this

theorem mget_update_lifetime_max (monthly lifetime : List (String × MetricMap))
    (Y f : String) (hY : Y ∈ all_years monthly) (hf : f ∈ MAX_FIELDS)
    (hne : monthly.filter (fun p => startswith p.1 Y) ≠ []) :
    mget ((dget (update_lifetime monthly lifetime) Y).getD []) f 0
      = pyround (fieldMax (monthly.filter (fun p => startswith p.1 Y)) f 0) 3 := by
  have hsome : recalculate_lifetime_year monthly Y
      = some (recalc_rate (round_all (accumulate_children
          (monthly.filter (fun p => startswith p.1 Y)) []))) := by
    unfold recalculate_lifetime_year
    dsimp only
    rw [if_neg (by simpa [List.isEmpty_iff] using hne)]
  have hpres : (dget ((recalculate_lifetime_year monthly Y).getD []) f).isSome :=
    dget_recalc_year_isSome monthly Y f (Or.inr hf) hne
  rw [dget_update_lifetime monthly lifetime Y hY, hsome]
  rw [hsome] at hpres
  simp only [Option.getD_some] at hpres ⊢
  unfold mget
  rw [dget_preserve_of_isSome _ _ _ hpres]
  have := recalc_year_max monthly Y f hf hne
  rw [hsome] at this
  simpa [mget] using this

theorem dget_ensure_getD (monthly : List (String × MetricMap)) (m : String) :
    (dget (ensure_month monthly m) m).getD [] = (dget monthly m).getD [] := by
  unfold ensure_month
  split
  · rfl
  · rename_i h
    rw [dget_dset_self]
    cases hm : dget monthly m with
    | none => rfl
    | some v => rw [hm] at h; simp at h

theorem monthOf_reconcile_seed (s : StartingValues) (raw : MetricMap) (t : String)
    (h : s.month_seeded = t.take 7 ∧ s.last_run_date = t ∧ s.last_daily = []) :
    monthOf (reconcile s raw t) t = (dget s.monthly (t.take 7)).getD [] := by
  unfold monthOf
  rw [reconcile_monthly]
  unfold new_monthly
  dsimp only
  rw [dispatch_seed _ _ _ _ h]
  exact dget_ensure_getD s.monthly (t.take 7)

theorem dget_reconcile_monthly_not_seed (s : StartingValues) (raw : MetricMap)
    (t : String)
    (h1 : ¬(s.month_seeded = t.take 7 ∧ s.last_run_date = t ∧ s.last_daily = [])) :
    dget (reconcile s raw t).monthly (t.take 7) =
      some (add_daily_to_month
        ((dget (dispatch s (ensure_month s.monthly (t.take 7)) (t.take 7) t).1
          (t.take 7)).getD [])
        (derive_daily_fields raw)) := by
  rw [reconcile_monthly]
  unfold new_monthly
  dsimp only
  have hskip : ¬((dispatch s (ensure_month s.monthly (t.take 7)) (t.take 7) t).2.2
      = true) :=
    fun hsk => h1 ((dispatch_skip_iff s _ _ t).mp hsk)
  rw [if_neg hskip, dget_dset_self]

theorem monthOf_reconcile_not_seed (s : StartingValues) (raw : MetricMap)
    (t : String)
    (h1 : ¬(s.month_seeded = t.take 7 ∧ s.last_run_date = t ∧ s.last_daily = [])) :
    monthOf (reconcile s raw t) t =
      add_daily_to_month
        ((dget (dispatch s (ensure_month s.monthly (t.take 7)) (t.take 7) t).1
          (t.take 7)).getD [])
        (derive_daily_fields raw) := by
  unfold monthOf
  rw [dget_reconcile_monthly_not_seed s raw t h1]
  exact Option.getD_some

theorem mget_add_daily_eq_pre (m d : MetricMap) (k : String) (d0 : ℚ)
    (h : k ≠ "Self-consumption Rate (%)") :
    mget (add_daily_to_month m d) k d0
      = mget (roundMaxFold d (roundAddFold d m)) k d0 := by
  unfold add_daily_to_month
  dsimp only
  split
  · rw [mget_dset_ne _ _ _ _ _ h]
  · rfl

theorem dget_add_daily_rate_pos (m d : MetricMap)
    (h : 0 < mget (add_daily_to_month m d) "PV Yield (kWh)" 0) :
    dget (add_daily_to_month m d) "Self-consumption Rate (%)" =
      some (pyround
        (mget (add_daily_to_month m d) "Self-consumption (kWh)" 0
          / mget (add_daily_to_month m d) "PV Yield (kWh)" 0 * 100) 3) := by
  rw [mget_add_daily_eq_pre _ _ _ _ (by decide)] at h
  rw [mget_add_daily_eq_pre _ _ "Self-consumption (kWh)" _ (by decide),
    mget_add_daily_eq_pre _ _ "PV Yield (kWh)" _ (by decide)]
  unfold add_daily_to_month
  dsimp only
  rw [if_pos h, dget_dset_self]

theorem dget_add_daily_rate_nonpos (m d : MetricMap)
    (h : ¬ 0 < mget (add_daily_to_month m d) "PV Yield (kWh)" 0) :
    dget (add_daily_to_month m d) "Self-consumption Rate (%)" =
      dget m "Self-consumption Rate (%)" := by
  rw [mget_add_daily_eq_pre _ _ _ _ (by decide)] at h
  unfold add_daily_to_month
  dsimp only
  rw [if_neg h]
  have h1 := dget_foldl_not_mem (fun fl x => pyround (max x (mget d fl 0)) 3)
    MAX_FIELDS (roundAddFold d m) "Self-consumption Rate (%)" rate_not_combined.2
  have h2 := dget_foldl_not_mem (fun fl x => pyround (x + mget d fl 0) 3)
    ADDITIVE_FIELDS m "Self-consumption Rate (%)" rate_not_combined.1
  rw [show roundMaxFold d (roundAddFold d m)
      = MAX_FIELDS.foldl (fun acc fl => dset acc fl
          ((fun fl x => pyround (max x (mget d fl 0)) 3) fl (mget acc fl 0)))
        (roundAddFold d m) from rfl]
  rw [h1]
  rw [show roundAddFold d m
      = ADDITIVE_FIELDS.foldl (fun acc fl => dset acc fl
          ((fun fl x => pyround (x + mget d fl 0) 3) fl (mget acc fl 0))) m from rfl]
  rw [h2]

theorem dget_accAddFold_not_mem (child m : MetricMap) (k : String)
    (hk : k ∉ ADDITIVE_FIELDS) : dget (accAddFold child m) k = dget m k := by
  have h := dget_foldl_not_mem (fun fl x => x + mget child fl 0)
    ADDITIVE_FIELDS m k hk
  rw [show accAddFold child m
      = ADDITIVE_FIELDS.foldl (fun acc fl => dset acc fl
          ((fun fl x => x + mget child fl 0) fl (mget acc fl 0))) m from rfl]
  exact h

theorem dget_accMaxFold_not_mem (child m : MetricMap) (k : String)
    (hk : k ∉ MAX_FIELDS) : dget (accMaxFold child m) k = dget m k := by
  have h := dget_foldl_not_mem (fun fl x => max x (mget child fl 0))
    MAX_FIELDS m k hk
  rw [show accMaxFold child m
      = MAX_FIELDS.foldl (fun acc fl => dset acc fl
          ((fun fl x => max x (mget child fl 0)) fl (mget acc fl 0))) m from rfl]
  exact h

theorem dget_accumulate_not_mem (children : List (String × MetricMap))
    (m : MetricMap) (k : String) (h1 : k ∉ ADDITIVE_FIELDS)
    (h2 : k ∉ MAX_FIELDS) :
    dget (accumulate_children children m) k = dget m k := by
  induction children generalizing m with
  | nil => rfl
  | cons p ps ih =>
      show dget (accumulate_children ps (accMaxFold p.2 (accAddFold p.2 m))) k = _
      rw [ih, dget_accMaxFold_not_mem _ _ _ h2, dget_accAddFold_not_mem _ _ _ h1]

/-- The all-time recompute carries no key outside the combined additive/max
fields and the recomputed rate: unknown keys on year ledgers are dropped. -/
theorem dget_all_time_unknown (lifetime_data : List (String × MetricMap))
    (k : String) (h1 : k ∉ ADDITIVE_FIELDS) (h2 : k ∉ MAX_FIELDS)
    (h3 : k ≠ "Self-consumption Rate (%)") :
    dget (calculate_all_time_totals lifetime_data) k = none := by
  unfold calculate_all_time_totals
  rw [dget_recalc_rate_not_rate _ _ h3, dget_round_all,
    dget_accumulate_not_mem _ _ _ h1 h2]
  rfl

theorem dget_recalc_rate_pos (m : MetricMap)
    (h : 0 < mget m "PV Yield (kWh)" 0) :
    dget (recalc_rate m) "Self-consumption Rate (%)" =
      some (pyround
        (mget m "Self-consumption (kWh)" 0 / mget m "PV Yield (kWh)" 0 * 100) 3) := by
  unfold recalc_rate
  dsimp only
  rw [if_pos h, dget_dset_self]

theorem dget_recalc_rate_nonpos (m : MetricMap)
    (h : ¬ 0 < mget m "PV Yield (kWh)" 0) :
    recalc_rate m = m := by
  unfold recalc_rate
  dsimp only
  rw [if_neg h]

/-- Re-running reconcile with the same snapshot on the same day reproduces
the additive fields of the current month, provided the first run did not
take the seed-consumption branch. -/
theorem reconcile_twice_additive (s : StartingValues) (raw : MetricMap)
    (t : String)
    (hseed : ¬(s.month_seeded = t.take 7 ∧ s.last_run_date = t ∧ s.last_daily = []))
    (f : String) (hf : f ∈ ADDITIVE_FIELDS) :
    mget (monthOf (reconcile (reconcile s raw t) raw t) t) f 0
      = mget (monthOf (reconcile s raw t) t) f 0 := by
  have hseed2 : ¬((reconcile s raw t).month_seeded = t.take 7 ∧
      (reconcile s raw t).last_run_date = t ∧
      (reconcile s raw t).last_daily = []) := by
    rintro ⟨-, -, h3⟩
    exact reconcile_last_daily_ne_nil s raw t h3
  have hpres : (dget (reconcile s raw t).monthly (t.take 7)).isSome := by
    rw [dget_reconcile_monthly_not_seed s raw t hseed]
    rfl
  have hens : ensure_month (reconcile s raw t).monthly (t.take 7)
      = (reconcile s raw t).monthly := ensure_month_of_isSome _ _ hpres
  have hsd : (reconcile s raw t).last_run_date = t ∧
      (reconcile s raw t).last_daily ≠ [] :=
    ⟨reconcile_last_run_date s raw t, reconcile_last_daily_ne_nil s raw t⟩
  rw [monthOf_reconcile_not_seed (reconcile s raw t) raw t hseed2]
  rw [hens, dispatch_same_day (reconcile s raw t) _ _ _ hseed2 hsd]
  dsimp only
  rw [dget_dset_self, Option.getD_some]
  rw [mget_add_daily_additive _ _ _ hf, mget_subtract_mem _ _ _ _ hf,
    reconcile_last_daily, mget_map_pairs_mem _ _ _ _ hf, sub_add_cancel]
  have hmonth : (dget (reconcile s raw t).monthly (t.take 7)).getD []
      = monthOf (reconcile s raw t) t := rfl
  rw [hmonth, monthOf_reconcile_not_seed s raw t hseed,
    mget_add_daily_additive _ _ _ hf, pyround_idem]

theorem dispatch_new_day (s : StartingValues) (monthly0 : List (String × MetricMap))
    (m t : String)
    (h1 : ¬(s.month_seeded = m ∧ s.last_run_date = t ∧ s.last_daily = []))
    (h2 : ¬(s.last_run_date = t ∧ s.last_daily ≠ []))
    (h3 : s.last_run_date ≠ "" ∧ s.last_run_date ≠ t) :
    dispatch s monthly0 m t =
      (monthly0, if s.month_seeded ≠ "" then "" else s.month_seeded, false) := by
  unfold dispatch
  rw [if_neg h1, if_neg h2, if_pos h3]

theorem dispatch_first_run (s : StartingValues) (monthly0 : List (String × MetricMap))
    (m t : String)
    (h1 : ¬(s.month_seeded = m ∧ s.last_run_date = t ∧ s.last_daily = []))
    (h2 : ¬(s.last_run_date = t ∧ s.last_daily ≠ []))
    (h3 : ¬(s.last_run_date ≠ "" ∧ s.last_run_date ≠ t)) :
    dispatch s monthly0 m t = (monthly0, s.month_seeded, false) := by
  unfold dispatch
  rw [if_neg h1, if_neg h2, if_neg h3]

theorem mget_derive_other (daily : MetricMap) (k : String) (d0 : ℚ)
    (h1 : k ≠ "Consumption (kWh)") (h2 : k ≠ "Self-consumption (kWh)")
    (h3 : k ≠ "Self-consumption Rate (%)") :
    mget (derive_daily_fields daily) k d0 = mget daily k d0 := by
  unfold derive_daily_fields
  dsimp only
  split
  · rw [mget_dset_ne _ _ _ _ _ h3, mget_dset_ne _ _ _ _ _ h2,
      mget_dset_ne _ _ _ _ _ h1]
  · rw [mget_dset_ne _ _ _ _ _ h2, mget_dset_ne _ _ _ _ _ h1]

theorem roundHalfEven_of_lt (q : ℚ) (z : ℤ) (h1 : ⌊q⌋ = z)
    (h2 : q - z < 1/2) : roundHalfEven q = z := by
  simp only [roundHalfEven, h1]
  rw [if_pos h2]

theorem roundHalfEven_of_gt (q : ℚ) (z : ℤ) (h1 : ⌊q⌋ = z)
    (h2 : 1/2 < q - z) : roundHalfEven q = z + 1 := by
  simp only [roundHalfEven, h1]
  rw [if_neg (not_lt.mpr (le_of_lt h2)), if_pos h2]

theorem pyround_eval_exact (q : ℚ) (n : ℕ) (z : ℤ)
    (h : q * 10^n = (z : ℚ)) : pyround q n = (z : ℚ) / 10^n := by
  unfold pyround
  rw [h, roundHalfEven_intCast]

theorem pyround_eval_lt (q : ℚ) (n : ℕ) (z : ℤ)
    (h1 : ⌊q * 10^n⌋ = z) (h2 : q * 10^n - z < 1/2) :
    pyround q n = (z : ℚ) / 10^n := by
  unfold pyround
  rw [roundHalfEven_of_lt _ _ h1 h2]

theorem pyround_eval_gt (q : ℚ) (n : ℕ) (z : ℤ)
    (h1 : ⌊q * 10^n⌋ = z) (h2 : 1/2 < q * 10^n - z) :
    pyround q n = ((z + 1 : ℤ) : ℚ) / 10^n := by
  unfold pyround
  rw [roundHalfEven_of_gt _ _ h1 h2]

/-- C5: when the current month was seeded (month_seeded equals the current
month key), the last run date equals today and no last_daily exists,
reconciliation leaves the month ledger untouched by the merge step, records
the (additive-field subset of the) daily snapshot as last_daily, and clears
the seed flag. -/
theorem c5_seed_consumption (s : StartingValues) (raw : MetricMap) (t : String)
    (h1 : s.month_seeded = t.take 7) (h2 : s.last_run_date = t)
    (h3 : s.last_daily = []) :
    monthOf (reconcile s raw t) t = (dget s.monthly (t.take 7)).getD []
    ∧ (reconcile s raw t).month_seeded = ""
    ∧ (reconcile s raw t).last_daily
        = ADDITIVE_FIELDS.map (fun f => (f, mget (derive_daily_fields raw) f 0)) := by
  refine ⟨monthOf_reconcile_seed s raw t ⟨h1, h2, h3⟩, ?_,
    reconcile_last_daily s raw t⟩
  rw [reconcile_month_seeded]
  unfold new_seeded
  rw [dispatch_seed _ _ _ _ ⟨h1, h2, h3⟩]

theorem c5_witness :
    c5S.month_seeded = "2025-06-15".take 7
    ∧ c5S.last_run_date = "2025-06-15"
    ∧ c5S.last_daily = []
    ∧ (monthOf (reconcile c5S [] "2025-06-15") "2025-06-15"
        = (dget c5S.monthly ("2025-06-15".take 7)).getD []
      ∧ (reconcile c5S [] "2025-06-15").month_seeded = ""
      ∧ (reconcile c5S [] "2025-06-15").last_daily
          = ADDITIVE_FIELDS.map (fun f => (f, mget (derive_daily_fields []) f 0))) :=
  ⟨by decide, by decide, rfl,
    c5_seed_consumption c5S [] "2025-06-15" (by decide) (by decide) rfl⟩

/-- C9: when previous_today_date is non-empty and differs from today, the
run moves the previous snapshot into yesterday and then overwrites
previous_today with the snapshot and date of the new day. -/
theorem c9_rollover (s : StartingValues) (raw : MetricMap) (t : String)
    (h1 : s.previous_today_date ≠ "") (h2 : s.previous_today_date ≠ t) :
    (reconcile s raw t).yesterday_date = s.previous_today_date
    ∧ (reconcile s raw t).yesterday = s.previous_today
    ∧ (reconcile s raw t).previous_today = derive_daily_fields raw
    ∧ (reconcile s raw t).previous_today_date = t := by
  obtain ⟨hy, hyd⟩ := reconcile_yesterday_rotate s raw t h1 h2
  exact ⟨hyd, hy, reconcile_previous_today s raw t,
    reconcile_previous_today_date s raw t⟩

theorem c9_witness :
    c9S.previous_today_date ≠ ""
    ∧ c9S.previous_today_date ≠ "2025-06-02"
    ∧ ((reconcile c9S [] "2025-06-02").yesterday_date = c9S.previous_today_date
      ∧ (reconcile c9S [] "2025-06-02").yesterday = c9S.previous_today
      ∧ (reconcile c9S [] "2025-06-02").previous_today = derive_daily_fields []
      ∧ (reconcile c9S [] "2025-06-02").previous_today_date = "2025-06-02") :=
  ⟨by decide, by decide, c9_rollover c9S [] "2025-06-02" (by decide) (by decide)⟩

/-- C3 counterexample: with PV = 0 and Import = 0.123 the stored consumption
is round(0.123, 2) = 0.12, not the import alone as the claim states. -/
theorem c3_counterexample :
    mget [("Import (kWh)", (123:ℚ)/1000)] "PV Yield (kWh)" 0 = 0
    ∧ mget [("Import (kWh)", (123:ℚ)/1000)] "Import (kWh)" 0 = 123/1000
    ∧ mget (derive_daily_fields [("Import (kWh)", (123:ℚ)/1000)])
        "Consumption (kWh)" 0 = 3/25
    ∧ ((3:ℚ)/25) ≠ 123/1000 := by
  refine ⟨by simp [mget, dget], by simp [mget, dget], ?_, by norm_num⟩
  rw [mget_derive_consumption]
  have hpv : mget [("Import (kWh)", (123:ℚ)/1000)] "PV Yield (kWh)" 0 = 0 := by
    simp [mget, dget]
  have him : mget [("Import (kWh)", (123:ℚ)/1000)] "Import (kWh)" 0 = 123/1000 := by
    simp [mget, dget]
  rw [hpv, him, if_pos le_rfl]
  rw [pyround_eval_lt _ _ 12 (by rw [Int.floor_eq_iff]; norm_num) (by norm_num)]
  norm_num

/-- C3 (amended): the stored consumption is the claimed case analysis rounded
to 2 decimal places; the stored self-consumption is max(0, PV − Export)
rounded to 2 decimal places and is never negative. -/
theorem c3_consumption_derivation (daily : MetricMap) :
    (mget daily "PV Yield (kWh)" 0 = 0 →
      mget (derive_daily_fields daily) "Consumption (kWh)" 0
        = pyround (mget daily "Import (kWh)" 0) 2)
    ∧ (0 < mget daily "PV Yield (kWh)" 0 → 0 < mget daily "Export (kWh)" 0 →
      mget (derive_daily_fields daily) "Consumption (kWh)" 0
        = pyround (mget daily "PV Yield (kWh)" 0 - mget daily "Export (kWh)" 0
            + mget daily "Import (kWh)" 0) 2)
    ∧ (0 < mget daily "PV Yield (kWh)" 0 → mget daily "Export (kWh)" 0 = 0 →
      mget (derive_daily_fields daily) "Consumption (kWh)" 0
        = pyround (mget daily "PV Yield (kWh)" 0 + mget daily "Import (kWh)" 0) 2)
    ∧ mget (derive_daily_fields daily) "Self-consumption (kWh)" 0
        = pyround (max 0 (mget daily "PV Yield (kWh)" 0
            - mget daily "Export (kWh)" 0)) 2
    ∧ 0 ≤ mget (derive_daily_fields daily) "Self-consumption (kWh)" 0 := by
  refine ⟨?_, ?_, ?_, mget_derive_self_consumption daily,
    derive_self_consumption_nonneg daily⟩
  · intro hpv
    rw [mget_derive_consumption, if_pos (le_of_eq hpv)]
  · intro hpv hex
    rw [mget_derive_consumption, if_neg (not_le.mpr hpv), if_pos hex]
  · intro hpv hex
    rw [mget_derive_consumption, if_neg (not_le.mpr hpv),
      if_neg (by rw [hex]; exact lt_irrefl 0)]

theorem c3_witness :
    mget [("Import (kWh)", (5:ℚ))] "PV Yield (kWh)" 0 = 0
    ∧ mget (derive_daily_fields [("Import (kWh)", (5:ℚ))]) "Consumption (kWh)" 0
        = pyround (mget [("Import (kWh)", (5:ℚ))] "Import (kWh)" 0) 2
    ∧ 0 ≤ mget (derive_daily_fields [("Import (kWh)", (5:ℚ))])
        "Self-consumption (kWh)" 0 :=
  ⟨by simp [mget, dget],
    (c3_consumption_derivation [("Import (kWh)", (5:ℚ))]).1 (by simp [mget, dget]),
    (c3_consumption_derivation [("Import (kWh)", (5:ℚ))]).2.2.2.2⟩

theorem dget_totals_rate_pos (children : List (String × MetricMap))
    (h : 0 < mget (recalc_rate (round_all (accumulate_children children [])))
      "PV Yield (kWh)" 0) :
    dget (recalc_rate (round_all (accumulate_children children [])))
        "Self-consumption Rate (%)" =
      some (pyround
        (mget (recalc_rate (round_all (accumulate_children children [])))
            "Self-consumption (kWh)" 0
          / mget (recalc_rate (round_all (accumulate_children children [])))
            "PV Yield (kWh)" 0 * 100) 3) := by
  rw [mget_recalc_rate_not_rate _ _ _ (by decide)] at h
  rw [mget_recalc_rate_not_rate _ "Self-consumption (kWh)" _ (by decide),
    mget_recalc_rate_not_rate _ "PV Yield (kWh)" _ (by decide)]
  exact dget_recalc_rate_pos _ h

theorem dget_totals_rate_nonpos (children : List (String × MetricMap))
    (h : ¬ 0 < mget (recalc_rate (round_all (accumulate_children children [])))
      "PV Yield (kWh)" 0) :
    dget (recalc_rate (round_all (accumulate_children children [])))
      "Self-consumption Rate (%)" = none := by
  rw [mget_recalc_rate_not_rate _ _ _ (by decide)] at h
  rw [dget_recalc_rate_nonpos _ h, dget_round_all,
    dget_accumulate_not_mem _ _ _ rate_not_combined.1 rate_not_combined.2]
  rfl

/-- C7 counterexample: merging an empty daily snapshot into a month ledger
that already carries a rate field but no PV yield leaves the stale rate in
place instead of omitting it. -/
theorem c7_counterexample :
    mget (add_daily_to_month [("Self-consumption Rate (%)", (50:ℚ))] [])
      "PV Yield (kWh)" 0 = 0
    ∧ dget (add_daily_to_month [("Self-consumption Rate (%)", (50:ℚ))] [])
        "Self-consumption Rate (%)" = some 50 := by
  have hpv : mget (add_daily_to_month [("Self-consumption Rate (%)", (50:ℚ))] [])
      "PV Yield (kWh)" 0 = 0 := by
    rw [mget_add_daily_additive _ _ _ (by decide)]
    have h1 : mget [("Self-consumption Rate (%)", (50:ℚ))] "PV Yield (kWh)" 0 = 0 := by
      simp [mget, dget]
    have h2 : mget ([] : MetricMap) "PV Yield (kWh)" 0 = 0 := rfl
    rw [h1, h2, add_zero, pyround_zero]
  refine ⟨hpv, ?_⟩
  rw [dget_add_daily_rate_nonpos _ _ (by rw [hpv]; exact lt_irrefl 0)]
  simp [dget]

/-- C7 (amended): after a merge the rate field equals
round(self-consumption ÷ PV yield × 100, 3) whenever PV yield is positive.
When PV yield is not positive, the year and all-time recomputes omit the
field, while the month merge leaves any previously stored rate untouched. -/
theorem c7_rate_recompute :
    (∀ m d : MetricMap,
      0 < mget (add_daily_to_month m d) "PV Yield (kWh)" 0 →
      dget (add_daily_to_month m d) "Self-consumption Rate (%)" =
        some (pyround (mget (add_daily_to_month m d) "Self-consumption (kWh)" 0
          / mget (add_daily_to_month m d) "PV Yield (kWh)" 0 * 100) 3))
    ∧ (∀ m d : MetricMap,
      ¬ 0 < mget (add_daily_to_month m d) "PV Yield (kWh)" 0 →
      dget (add_daily_to_month m d) "Self-consumption Rate (%)" =
        dget m "Self-consumption Rate (%)")
    ∧ (∀ (monthly : List (String × MetricMap)) (Y : String) (yt : MetricMap),
      recalculate_lifetime_year monthly Y = some yt →
      (0 < mget yt "PV Yield (kWh)" 0 →
        dget yt "Self-consumption Rate (%)" =
          some (pyround (mget yt "Self-consumption (kWh)" 0
            / mget yt "PV Yield (kWh)" 0 * 100) 3))
      ∧ (¬ 0 < mget yt "PV Yield (kWh)" 0 →
        dget yt "Self-consumption Rate (%)" = none))
    ∧ (∀ lifetime : List (String × MetricMap),
      (0 < mget (calculate_all_time_totals lifetime) "PV Yield (kWh)" 0 →
        dget (calculate_all_time_totals lifetime) "Self-consumption Rate (%)" =
          some (pyround (mget (calculate_all_time_totals lifetime)
              "Self-consumption (kWh)" 0
            / mget (calculate_all_time_totals lifetime) "PV Yield (kWh)" 0 * 100) 3))
      ∧ (¬ 0 < mget (calculate_all_time_totals lifetime) "PV Yield (kWh)" 0 →
        dget (calculate_all_time_totals lifetime) "Self-consumption Rate (%)"
          = none)) := by
  refine ⟨dget_add_daily_rate_pos, dget_add_daily_rate_nonpos, ?_, ?_⟩
  · intro monthly Y yt hyt
    unfold recalculate_lifetime_year at hyt
    dsimp only at hyt
    by_cases hne : (monthly.filter (fun p => startswith p.1 Y)).isEmpty
    · rw [if_pos hne] at hyt
      cases hyt
    · rw [if_neg hne] at hyt
      injection hyt with hyt
      subst hyt
      exact ⟨dget_totals_rate_pos _, dget_totals_rate_nonpos _⟩
  · intro lifetime
    exact ⟨dget_totals_rate_pos lifetime, dget_totals_rate_nonpos lifetime⟩

theorem c7_witness :
    ¬ 0 < mget (add_daily_to_month [("Self-consumption Rate (%)", (50:ℚ))] [])
      "PV Yield (kWh)" 0
    ∧ dget (add_daily_to_month [("Self-consumption Rate (%)", (50:ℚ))] [])
        "Self-consumption Rate (%)"
      = dget [("Self-consumption Rate (%)", (50:ℚ))] "Self-consumption Rate (%)" := by
  have hpv : ¬ 0 < mget (add_daily_to_month [("Self-consumption Rate (%)", (50:ℚ))] [])
      "PV Yield (kWh)" 0 := by
    rw [mget_add_daily_additive _ _ _ (by decide)]
    have h1 : mget [("Self-consumption Rate (%)", (50:ℚ))] "PV Yield (kWh)" 0 = 0 := by
      simp [mget, dget]
    have h2 : mget ([] : MetricMap) "PV Yield (kWh)" 0 = 0 := rfl
    rw [h1, h2, add_zero, pyround_zero]
    exact lt_irrefl 0
  exact ⟨hpv, c7_rate_recompute.2.1 _ _ hpv⟩

/-- C6 counterexample: a lifetime-only field present on a year ledger is
dropped by the all-time recompute, not preserved verbatim. -/
theorem c6_counterexample :
    dget ((dget [("2025", [("Equivalent Trees Planted", (5:ℚ))])] "2025").getD [])
      "Equivalent Trees Planted" = some 5
    ∧ dget (calculate_all_time_totals
        [("2025", [("Equivalent Trees Planted", (5:ℚ))])])
        "Equivalent Trees Planted" = none := by
  constructor
  · simp [dget]
  · exact dget_all_time_unknown _ _ (by decide) (by decide) (by decide)

/-- C6 (amended): the per-year recompute preserves verbatim every field the
recompute did not produce, both at the preservation step and through the
lifetime update of a run; the all-time recompute instead keeps only the
combined additive/max fields and the recomputed rate, dropping unknown keys. -/
theorem c6_unknown_fields :
    (∀ (yt old : MetricMap) (k : String), dget yt k = none →
      dget (preserve_extra_fields yt old) k = dget old k)
    ∧ (∀ (monthly lifetime : List (String × MetricMap)) (Y k : String)
        (yt : MetricMap), Y ∈ all_years monthly →
        recalculate_lifetime_year monthly Y = some yt →
        dget yt k = none →
        dget ((dget (update_lifetime monthly lifetime) Y).getD []) k
          = dget ((dget lifetime Y).getD []) k)
    ∧ (∀ (lifetime_data : List (String × MetricMap)) (k : String),
        k ∉ ADDITIVE_FIELDS → k ∉ MAX_FIELDS →
        k ≠ "Self-consumption Rate (%)" →
        dget (calculate_all_time_totals lifetime_data) k = none) := by
  refine ⟨dget_preserve_of_none, ?_, dget_all_time_unknown⟩
  intro monthly lifetime Y k yt hY hyt hk
  rw [dget_update_lifetime monthly lifetime Y hY, hyt]
  simp only [Option.getD_some]
  exact dget_preserve_of_none yt _ k hk

theorem c6_witness :
    dget ([] : MetricMap) "Equivalent Trees Planted" = none
    ∧ dget (preserve_extra_fields [] [("Equivalent Trees Planted", (5:ℚ))])
        "Equivalent Trees Planted"
      = dget [("Equivalent Trees Planted", (5:ℚ))] "Equivalent Trees Planted"
    ∧ "Equivalent Trees Planted" ∉ ADDITIVE_FIELDS
    ∧ dget (calculate_all_time_totals []) "Equivalent Trees Planted" = none :=
  ⟨rfl, c6_unknown_fields.1 [] _ _ rfl, by decide,
    c6_unknown_fields.2.2 [] _ (by decide) (by decide) (by decide)⟩

/-- C4 counterexample: a month value of 0.0001 gives a recomputed year value
of round(0.0001, 3) = 0, not the exact sum 0.0001 the claim states. -/
theorem c4_counterexample :
    mget ((recalculate_lifetime_year
        [("2025-01", [("PV Yield (kWh)", (1:ℚ)/10000)])] "2025").getD [])
      "PV Yield (kWh)" 0 = 0
    ∧ fieldSum ([("2025-01", [("PV Yield (kWh)", (1:ℚ)/10000)])].filter
        (fun p => startswith p.1 "2025")) "PV Yield (kWh)" = 1/10000
    ∧ (0 : ℚ) ≠ 1/10000 := by
  have hsw : startswith "2025-01" "2025" = true := by decide
  have hfil : [("2025-01", [("PV Yield (kWh)", (1:ℚ)/10000)])].filter
      (fun p => startswith p.1 "2025")
      = [("2025-01", [("PV Yield (kWh)", (1:ℚ)/10000)])] := by
    simp [List.filter, hsw]
  have hsum : fieldSum ([("2025-01", [("PV Yield (kWh)", (1:ℚ)/10000)])].filter
      (fun p => startswith p.1 "2025")) "PV Yield (kWh)" = 1/10000 := by
    rw [hfil]
    simp [fieldSum, mget, dget]
  refine ⟨?_, hsum, by norm_num⟩
  rw [recalc_year_additive _ _ _ (by decide) (by rw [hfil]; exact List.cons_ne_nil _ _),
    hsum]
  rw [pyround_eval_lt _ _ 0 (by rw [Int.floor_eq_iff]; norm_num) (by norm_num)]
  norm_num

/-- C4 (amended): after recomputation a year ledger holds, for each additive
field, the sum over its months rounded to 3 decimal places, and for each max
field the running maximum (from 0) rounded to 3 decimal places — both for the
pure recompute and for the lifetime table written by a reconcile run. -/
theorem c4_year_recompute :
    (∀ (monthly : List (String × MetricMap)) (Y f : String),
      f ∈ ADDITIVE_FIELDS →
      monthly.filter (fun p => startswith p.1 Y) ≠ [] →
      mget ((recalculate_lifetime_year monthly Y).getD []) f 0
        = pyround (fieldSum (monthly.filter (fun p => startswith p.1 Y)) f) 3)
    ∧ (∀ (monthly : List (String × MetricMap)) (Y f : String),
      f ∈ MAX_FIELDS →
      monthly.filter (fun p => startswith p.1 Y) ≠ [] →
      mget ((recalculate_lifetime_year monthly Y).getD []) f 0
        = pyround (fieldMax (monthly.filter (fun p => startswith p.1 Y)) f 0) 3)
    ∧ (∀ (s : StartingValues) (raw : MetricMap) (t Y f : String),
      Y ∈ all_years (reconcile s raw t).monthly →
      f ∈ ADDITIVE_FIELDS →
      (reconcile s raw t).monthly.filter (fun p => startswith p.1 Y) ≠ [] →
      mget ((dget (reconcile s raw t).lifetime Y).getD []) f 0
        = pyround (fieldSum ((reconcile s raw t).monthly.filter
            (fun p => startswith p.1 Y)) f) 3) := by
  refine ⟨fun monthly Y f hf hne => recalc_year_additive monthly Y f hf hne,
    fun monthly Y f hf hne => recalc_year_max monthly Y f hf hne, ?_⟩
  intro s raw t Y f hY hf hne
  rw [reconcile_monthly] at hY hne
  rw [reconcile_lifetime, reconcile_monthly]
  exact mget_update_lifetime_additive _ s.lifetime Y f hY hf hne

theorem c4_witness :
    "PV Yield (kWh)" ∈ ADDITIVE_FIELDS
    ∧ [("2025-01", ([] : MetricMap))].filter (fun p => startswith p.1 "2025") ≠ []
    ∧ mget ((recalculate_lifetime_year [("2025-01", ([] : MetricMap))] "2025").getD [])
        "PV Yield (kWh)" 0
      = pyround (fieldSum ([("2025-01", ([] : MetricMap))].filter
          (fun p => startswith p.1 "2025")) "PV Yield (kWh)") 3 :=
  ⟨by decide, by decide, c4_year_recompute.1 _ _ _ (by decide) (by decide)⟩

theorem reconcile_monthly_seed (s : StartingValues) (raw : MetricMap) (t : String)
    (h : s.month_seeded = t.take 7 ∧ s.last_run_date = t ∧ s.last_daily = []) :
    (reconcile s raw t).monthly = ensure_month s.monthly (t.take 7) := by
  rw [reconcile_monthly]
  unfold new_monthly
  dsimp only
  rw [dispatch_seed _ _ _ _ h]
  rfl

/-- C1 counterexample: on a seeded state whose month value is 0.0004, the
first reconcile leaves 0.0004 (seed consumption, no merge) while the second
reconcile subtracts and re-adds the snapshot and rounds, leaving 0 — the
two-run ledger differs from the one-run ledger on an additive field. -/
theorem c1_counterexample :
    "PV Yield (kWh)" ∈ ADDITIVE_FIELDS
    ∧ mget (monthOf (reconcile c1S c1d "2025-06-15") "2025-06-15")
        "PV Yield (kWh)" 0 = 1/2500
    ∧ mget (monthOf (reconcile (reconcile c1S c1d "2025-06-15") c1d "2025-06-15")
        "2025-06-15") "PV Yield (kWh)" 0 = 0
    ∧ (0 : ℚ) ≠ 1/2500 := by
  have ht : ("2025-06-15".take 7) = "2025-06" := by decide
  have hseedc : c1S.month_seeded = "2025-06-15".take 7
      ∧ c1S.last_run_date = "2025-06-15" ∧ c1S.last_daily = [] := by
    refine ⟨by decide, by decide, rfl⟩
  have honce : mget (monthOf (reconcile c1S c1d "2025-06-15") "2025-06-15")
      "PV Yield (kWh)" 0 = 1/2500 := by
    rw [monthOf_reconcile_seed c1S c1d _ hseedc, ht]
    simp [c1S, dget, mget]
  refine ⟨by decide, honce, ?_, by norm_num⟩
  have hseed2 : ¬((reconcile c1S c1d "2025-06-15").month_seeded = "2025-06-15".take 7
      ∧ (reconcile c1S c1d "2025-06-15").last_run_date = "2025-06-15"
      ∧ (reconcile c1S c1d "2025-06-15").last_daily = []) := by
    rintro ⟨-, -, h3⟩
    exact reconcile_last_daily_ne_nil c1S c1d "2025-06-15" h3
  have hs1p : (dget c1S.monthly ("2025-06-15".take 7)).isSome := by
    rw [ht]
    simp [c1S, dget]
  have hs1monthly : (reconcile c1S c1d "2025-06-15").monthly = c1S.monthly := by
    rw [reconcile_monthly_seed c1S c1d _ hseedc]
    exact ensure_month_of_isSome _ _ hs1p
  have hpres2 : (dget (reconcile c1S c1d "2025-06-15").monthly
      ("2025-06-15".take 7)).isSome := by
    rw [hs1monthly]
    exact hs1p
  rw [monthOf_reconcile_not_seed _ c1d _ hseed2,
    ensure_month_of_isSome _ _ hpres2,
    dispatch_same_day _ _ _ _ hseed2
      ⟨reconcile_last_run_date c1S c1d _, reconcile_last_daily_ne_nil c1S c1d _⟩]
  dsimp only
  rw [dget_dset_self, Option.getD_some]
  rw [mget_add_daily_additive _ _ _ (by decide),
    mget_subtract_mem _ _ _ _ (by decide),
    reconcile_last_daily, mget_map_pairs_mem _ _ _ _ (by decide)]
  have hdval : mget (derive_daily_fields c1d) "PV Yield (kWh)" 0 = 1 := by
    rw [mget_derive_other _ _ _ (by decide) (by decide) (by decide)]
    simp [c1d, mget, dget]
  have hcur : mget ((dget (reconcile c1S c1d "2025-06-15").monthly
      ("2025-06-15".take 7)).getD []) "PV Yield (kWh)" 0 = 1/2500 := by
    rw [hs1monthly, ht]
    simp [c1S, dget, mget]
  rw [hdval, hcur]
  have harith : (1:ℚ)/2500 - 1 + 1 = 1/2500 := by norm_num
  rw [harith,
    pyround_eval_lt _ _ 0 (by rw [Int.floor_eq_iff]; norm_num) (by norm_num)]
  norm_num

/-- C1 (amended): reconciling the same snapshot twice on the same day leaves
every additive field of the month ledger as after one reconciliation, for
every starting state for which the first run does not take the
seed-consumption branch (on seeded states whose ledger values are not
3-decimal multiples, the second run additionally rounds them). -/
theorem c1_reconcile_idempotent (s : StartingValues) (raw : MetricMap)
    (t : String)
    (hseed : ¬(s.month_seeded = t.take 7 ∧ s.last_run_date = t
      ∧ s.last_daily = []))
    (f : String) (hf : f ∈ ADDITIVE_FIELDS) :
    mget (monthOf (reconcile (reconcile s raw t) raw t) t) f 0
      = mget (monthOf (reconcile s raw t) t) f 0 :=
  reconcile_twice_additive s raw t hseed f hf

theorem c1_witness :
    ¬(c1W.month_seeded = "2025-06-01".take 7 ∧ c1W.last_run_date = "2025-06-01"
      ∧ c1W.last_daily = [])
    ∧ "PV Yield (kWh)" ∈ ADDITIVE_FIELDS
    ∧ mget (monthOf (reconcile (reconcile c1W [] "2025-06-01") [] "2025-06-01")
        "2025-06-01") "PV Yield (kWh)" 0
      = mget (monthOf (reconcile c1W [] "2025-06-01") "2025-06-01")
        "PV Yield (kWh)" 0 :=
  ⟨by decide, by decide,
    c1_reconcile_idempotent c1W [] "2025-06-01" (by decide) _ (by decide)⟩

/-- C2 counterexample: a peak value of 0.1234 in the month ledger is turned
into round(max(0.1234, 0), 3) = 0.123 by the merge, not the plain maximum. -/
theorem c2_counterexample :
    mget (add_daily_to_month [("Peak Power (kW)", (1234:ℚ)/10000)] [])
      "Peak Power (kW)" 0 = 123/1000
    ∧ max (mget [("Peak Power (kW)", (1234:ℚ)/10000)] "Peak Power (kW)" 0)
        (mget ([] : MetricMap) "Peak Power (kW)" 0) = 1234/10000
    ∧ ((123:ℚ)/1000) ≠ 1234/10000 := by
  have hm : mget [("Peak Power (kW)", (1234:ℚ)/10000)] "Peak Power (kW)" 0
      = 1234/10000 := by simp [mget, dget]
  have hd : mget ([] : MetricMap) "Peak Power (kW)" 0 = 0 := rfl
  have hmax : max ((1234:ℚ)/10000) 0 = 1234/10000 :=
    max_eq_left (by norm_num)
  refine ⟨?_, by rw [hm, hd, hmax], by norm_num⟩
  rw [mget_add_daily_max _ _ _ (by decide), hm, hd, hmax,
    pyround_eval_lt _ _ 123 (by rw [Int.floor_eq_iff]; norm_num) (by norm_num)]
  norm_num

/-- C2 (amended): the merge adds additive fields and takes the maximum of
peak fields, each rounded to 3 decimal places; the concrete two-day scenario
yields PV 150, Consumption 145, Self-consumption 130. -/
theorem c2_merge_scenario :
    (∀ (m d : MetricMap) (f : String), f ∈ ADDITIVE_FIELDS →
      mget (add_daily_to_month m d) f 0 = pyround (mget m f 0 + mget d f 0) 3)
    ∧ (∀ (m d : MetricMap) (f : String), f ∈ MAX_FIELDS →
      mget (add_daily_to_month m d) f 0
        = pyround (max (mget m f 0) (mget d f 0)) 3)
    ∧ (mget (monthOf (reconcile (reconcile c2S0 c2d1 "2025-06-01") c2d2
          "2025-06-02") "2025-06-02") "PV Yield (kWh)" 0 = 150
      ∧ mget (monthOf (reconcile (reconcile c2S0 c2d1 "2025-06-01") c2d2
          "2025-06-02") "2025-06-02") "Consumption (kWh)" 0 = 145
      ∧ mget (monthOf (reconcile (reconcile c2S0 c2d1 "2025-06-01") c2d2
          "2025-06-02") "2025-06-02") "Self-consumption (kWh)" 0 = 130) := by
  have ht1 : ("2025-06-01".take 7) = "2025-06" := by decide
  have ht2 : ("2025-06-02".take 7) = "2025-06" := by decide
  -- derived day-1 snapshot
  have l1 : mget c2d1 "PV Yield (kWh)" 0 = 100 := by simp [c2d1, mget, dget]
  have l2 : mget c2d1 "Export (kWh)" 0 = 20 := by simp [c2d1, mget, dget]
  have l3 : mget c2d1 "Import (kWh)" 0 = 5 := by simp [c2d1, mget, dget]
  have hd1pv : mget (derive_daily_fields c2d1) "PV Yield (kWh)" 0 = 100 := by
    rw [mget_derive_other _ _ _ (by decide) (by decide) (by decide), l1]
  have hd1cons : mget (derive_daily_fields c2d1) "Consumption (kWh)" 0 = 85 := by
    rw [mget_derive_consumption, l1, l2, l3, if_neg (by norm_num),
      if_pos (by norm_num : (0:ℚ) < 20),
      show (100:ℚ) - 20 + 5 = 85 by norm_num,
      pyround_eval_exact _ _ 8500 (by norm_num)]
    norm_num
  have hd1sc : mget (derive_daily_fields c2d1) "Self-consumption (kWh)" 0 = 80 := by
    rw [mget_derive_self_consumption, l1, l2,
      max_eq_right (by norm_num : (0:ℚ) ≤ 100 - 20),
      show (100:ℚ) - 20 = 80 by norm_num,
      pyround_eval_exact _ _ 8000 (by norm_num)]
    norm_num
  -- first run
  have hseed1 : ¬(c2S0.month_seeded = "2025-06-01".take 7
      ∧ c2S0.last_run_date = "2025-06-01" ∧ c2S0.last_daily = []) := by decide
  have hdisp1 : dispatch c2S0 (ensure_month c2S0.monthly "2025-06") "2025-06"
      "2025-06-01"
      = (ensure_month c2S0.monthly "2025-06", c2S0.month_seeded, false) :=
    dispatch_first_run _ _ _ _ (by decide) (by decide) (by decide)
  have hens1 : (dget (ensure_month c2S0.monthly "2025-06") "2025-06").getD []
      = ([] : MetricMap) := by
    simp [c2S0, ensure_month, dget, dset]
  have hM1 : monthOf (reconcile c2S0 c2d1 "2025-06-01") "2025-06-01"
      = add_daily_to_month [] (derive_daily_fields c2d1) := by
    rw [monthOf_reconcile_not_seed _ _ _ hseed1, ht1, hdisp1]
    dsimp only
    rw [hens1]
  have hdget1 : dget (reconcile c2S0 c2d1 "2025-06-01").monthly "2025-06"
      = some (add_daily_to_month [] (derive_daily_fields c2d1)) := by
    have h := dget_reconcile_monthly_not_seed c2S0 c2d1 "2025-06-01" hseed1
    rw [ht1, hdisp1] at h
    dsimp only at h
    rw [hens1] at h
    exact h
  -- month after day 1
  have hM1pv : mget (add_daily_to_month [] (derive_daily_fields c2d1))
      "PV Yield (kWh)" 0 = 100 := by
    rw [mget_add_daily_additive _ _ _ (by decide), hd1pv,
      show mget ([] : MetricMap) "PV Yield (kWh)" 0 = 0 from rfl, zero_add,
      pyround_eval_exact _ _ 100000 (by norm_num)]
    norm_num
  have hM1cons : mget (add_daily_to_month [] (derive_daily_fields c2d1))
      "Consumption (kWh)" 0 = 85 := by
    rw [mget_add_daily_additive _ _ _ (by decide), hd1cons,
      show mget ([] : MetricMap) "Consumption (kWh)" 0 = 0 from rfl, zero_add,
      pyround_eval_exact _ _ 85000 (by norm_num)]
    norm_num
  have hM1sc : mget (add_daily_to_month [] (derive_daily_fields c2d1))
      "Self-consumption (kWh)" 0 = 80 := by
    rw [mget_add_daily_additive _ _ _ (by decide), hd1sc,
      show mget ([] : MetricMap) "Self-consumption (kWh)" 0 = 0 from rfl, zero_add,
      pyround_eval_exact _ _ 80000 (by norm_num)]
    norm_num
  -- second run takes the new-day branch
  have hseed2 : ¬((reconcile c2S0 c2d1 "2025-06-01").month_seeded
        = "2025-06-02".take 7
      ∧ (reconcile c2S0 c2d1 "2025-06-01").last_run_date = "2025-06-02"
      ∧ (reconcile c2S0 c2d1 "2025-06-01").last_daily = []) := by
    rintro ⟨-, h2, -⟩
    rw [reconcile_last_run_date] at h2
    exact absurd h2 (by decide)
  have hpres2 : (dget (reconcile c2S0 c2d1 "2025-06-01").monthly "2025-06").isSome := by
    rw [hdget1]
    rfl
  have hens2 : ensure_month (reconcile c2S0 c2d1 "2025-06-01").monthly "2025-06"
      = (reconcile c2S0 c2d1 "2025-06-01").monthly :=
    ensure_month_of_isSome _ _ hpres2
  have hdisp2 : dispatch (reconcile c2S0 c2d1 "2025-06-01")
      (reconcile c2S0 c2d1 "2025-06-01").monthly "2025-06" "2025-06-02"
      = ((reconcile c2S0 c2d1 "2025-06-01").monthly,
        if (reconcile c2S0 c2d1 "2025-06-01").month_seeded ≠ "" then ""
        else (reconcile c2S0 c2d1 "2025-06-01").month_seeded, false) := by
    refine dispatch_new_day _ _ _ _ hseed2 ?_ ?_
    · rintro ⟨h2, -⟩
      rw [reconcile_last_run_date] at h2
      exact absurd h2 (by decide)
    · rw [reconcile_last_run_date]
      exact ⟨by decide, by decide⟩
  have hM2 : monthOf (reconcile (reconcile c2S0 c2d1 "2025-06-01") c2d2
        "2025-06-02") "2025-06-02"
      = add_daily_to_month (add_daily_to_month [] (derive_daily_fields c2d1))
          (derive_daily_fields c2d2) := by
    rw [monthOf_reconcile_not_seed _ _ _ hseed2, ht2, hens2, hdisp2]
    dsimp only
    rw [hdget1, Option.getD_some]
  -- derived day-2 snapshot
  have l4 : mget c2d2 "PV Yield (kWh)" 0 = 50 := by simp [c2d2, mget, dget]
  have l5 : mget c2d2 "Export (kWh)" 0 = 0 := by simp [c2d2, mget, dget]
  have l6 : mget c2d2 "Import (kWh)" 0 = 10 := by simp [c2d2, mget, dget]
  have hd2pv : mget (derive_daily_fields c2d2) "PV Yield (kWh)" 0 = 50 := by
    rw [mget_derive_other _ _ _ (by decide) (by decide) (by decide), l4]
  have hd2cons : mget (derive_daily_fields c2d2) "Consumption (kWh)" 0 = 60 := by
    rw [mget_derive_consumption, l4, l5, l6, if_neg (by norm_num),
      if_neg (lt_irrefl 0),
      show (50:ℚ) + 10 = 60 by norm_num,
      pyround_eval_exact _ _ 6000 (by norm_num)]
    norm_num
  have hd2sc : mget (derive_daily_fields c2d2) "Self-consumption (kWh)" 0 = 50 := by
    rw [mget_derive_self_consumption, l4, l5,
      max_eq_right (by norm_num : (0:ℚ) ≤ 50 - 0),
      show (50:ℚ) - 0 = 50 by norm_num,
      pyround_eval_exact _ _ 5000 (by norm_num)]
    norm_num
  refine ⟨mget_add_daily_additive, mget_add_daily_max, ?_, ?_, ?_⟩
  · rw [hM2, mget_add_daily_additive _ _ _ (by decide), hM1pv, hd2pv,
      show (100:ℚ) + 50 = 150 by norm_num,
      pyround_eval_exact _ _ 150000 (by norm_num)]
    norm_num
  · rw [hM2, mget_add_daily_additive _ _ _ (by decide), hM1cons, hd2cons,
      show (85:ℚ) + 60 = 145 by norm_num,
      pyround_eval_exact _ _ 145000 (by norm_num)]
    norm_num
  · rw [hM2, mget_add_daily_additive _ _ _ (by decide), hM1sc, hd2sc,
      show (80:ℚ) + 50 = 130 by norm_num,
      pyround_eval_exact _ _ 130000 (by norm_num)]
    norm_num

theorem c2_witness :
    "PV Yield (kWh)" ∈ ADDITIVE_FIELDS
    ∧ "Peak Power (kW)" ∈ MAX_FIELDS
    ∧ mget (add_daily_to_month [] []) "PV Yield (kWh)" 0
        = pyround (mget ([] : MetricMap) "PV Yield (kWh)" 0
            + mget ([] : MetricMap) "PV Yield (kWh)" 0) 3
    ∧ mget (add_daily_to_month [] []) "Peak Power (kW)" 0
        = pyround (max (mget ([] : MetricMap) "Peak Power (kW)" 0)
            (mget ([] : MetricMap) "Peak Power (kW)" 0)) 3 :=
  ⟨by decide, by decide, c2_merge_scenario.1 [] [] _ (by decide),
    c2_merge_scenario.2.1 [] [] _ (by decide)⟩

theorem sum_map_getD (l : List ℚ) :
    ((List.range l.length).map (fun h => l.getD h 0)).sum = l.sum := by
  induction l with
  | nil => rfl
  | cons a xs ih =>
      rw [List.length_cons, List.range_succ_eq_map, List.map_cons, List.map_map,
        List.sum_cons, List.getD_cons_zero]
      have hcomp : ((fun h => (a :: xs).getD h 0) ∘ Nat.succ)
          = fun h => xs.getD h 0 := by
        funext h
        simp [Function.comp, List.getD_cons_succ]
      rw [hcomp, ih, List.sum_cons]

/-- C8: for every 24-slot reference shape with positive total and every
non-negative self-consumption total C, the 24 hourly allocations sum to C
exactly; with two equal nonzero hours and C = 40 each nonzero hour gets 20. -/
theorem c8_proportional_distribution :
    (∀ (pattern : List ℚ) (C : ℚ), pattern.length = 24 → 0 ≤ C →
      0 < pattern.sum →
      ((List.range 24).map (sc_allocation pattern C)).sum = C)
    ∧ sc_allocation c8shape 40 10 = 20
    ∧ sc_allocation c8shape 40 11 = 20 := by
  refine ⟨?_, ?_, ?_⟩
  · intro pattern C hlen _hC hS
    have hfun : sc_allocation pattern C
        = fun h => C / pattern.sum * pattern.getD h 0 := by
      funext h
      unfold sc_allocation
      ring
    rw [hfun, List.sum_map_mul_left, ← hlen, sum_map_getD,
      div_mul_cancel₀ C (ne_of_gt hS)]
  · have hget : c8shape.getD 10 0 = 10 := by norm_num [c8shape]
    have hsum : c8shape.sum = 20 := by norm_num [c8shape]
    unfold sc_allocation
    rw [hget, hsum]
    norm_num
  · have hget : c8shape.getD 11 0 = 10 := by norm_num [c8shape]
    have hsum : c8shape.sum = 20 := by norm_num [c8shape]
    unfold sc_allocation
    rw [hget, hsum]
    norm_num

theorem c8_witness :
    c8shape.length = 24
    ∧ (0:ℚ) ≤ 40
    ∧ 0 < c8shape.sum
    ∧ ((List.range 24).map (sc_allocation c8shape 40)).sum = 40 := by
  have hsum : c8shape.sum = 20 := by norm_num [c8shape]
  exact ⟨by decide, by norm_num,
    by rw [hsum]; norm_num,
    c8_proportional_distribution.1 c8shape 40 (by decide) (by norm_num)
      (by rw [hsum]; norm_num)⟩

theorem getD_of_len_le {α : Type} (l : List α) (n : ℕ) (d : α)
    (h : l.length ≤ n) : l.getD n d = d := by
  rw [List.getD_eq_getElem?_getD, List.getElem?_eq_none h]
  rfl

theorem mget_nil (k : String) (d : ℚ) : mget [] k d = d := rfl

theorem mget_dset_same (m : MetricMap) (k k' : String) :
    mget (dset m k (mget m k 0)) k' 0 = mget m k' 0 := by
  by_cases h : k' = k
  · subst h
    rw [mget_dset_self]
  · rw [mget_dset_ne _ _ _ _ _ h]

theorem dget_map_pyround (m : MetricMap) (k : String) (n : ℕ) :
    dget (m.map (fun p => (p.1, pyround p.2 n))) k
      = (dget m k).map (fun v => pyround v n) := by
  induction m with
  | nil => rfl
  | cons p rest ih =>
      obtain ⟨k₀, v₀⟩ := p
      by_cases h : k₀ = k
      · simp [dget, h]
      · simpa [dget, h] using ih

theorem mget_map_pyround (m : MetricMap) (k : String) (n : ℕ) :
    mget (m.map (fun p => (p.1, pyround p.2 n))) k 0 = pyround (mget m k 0) n := by
  unfold mget
  rw [dget_map_pyround]
  cases dget m k with
  | none => simp [pyround_zero]
  | some v => rfl

theorem savings_step_total (cfg : FinConfig) (pattern : List ℚ)
    (ptotal sc exp : ℚ) (month weekday : ℕ)
    (hr : cfg.rates = []) (hc : cfg.export_credits = [])
    (acc : MetricMap × MetricMap) (h : ℕ)
    (h1 : mget acc.1 "total" 0 = 0) (h2 : mget acc.2 "total" 0 = 0) :
    mget (savings_step cfg pattern ptotal sc exp month weekday acc h).1
      "total" 0 = 0
    ∧ mget (savings_step cfg pattern ptotal sc exp month weekday acc h).2
      "total" 0 = 0 := by
  have hrate : (get_tou_info cfg h month weekday).1 = 0 := by
    unfold get_tou_info
    dsimp only
    rw [hr]
    rfl
  unfold savings_step
  dsimp only
  constructor
  · split
    · rw [hrate, mul_zero, add_zero, add_zero, mget_dset_self, mget_dset_same]
      exact h1
    · exact h1
  · split
    · rw [hc, mget_nil, if_neg (lt_irrefl 0)]
      exact h2
    · exact h2

theorem fold_savings_total (cfg : FinConfig) (pattern : List ℚ)
    (ptotal sc exp : ℚ) (month weekday : ℕ)
    (hr : cfg.rates = []) (hc : cfg.export_credits = []) :
    ∀ (hs : List ℕ) (acc : MetricMap × MetricMap),
      mget acc.1 "total" 0 = 0 → mget acc.2 "total" 0 = 0 →
      mget (hs.foldl (savings_step cfg pattern ptotal sc exp month weekday)
        acc).1 "total" 0 = 0
      ∧ mget (hs.foldl (savings_step cfg pattern ptotal sc exp month weekday)
        acc).2 "total" 0 = 0 := by
  intro hs
  induction hs with
  | nil => exact fun acc h1 h2 => ⟨h1, h2⟩
  | cons h rest ih =>
      intro acc h1 h2
      obtain ⟨h1', h2'⟩ :=
        savings_step_total cfg pattern ptotal sc exp month weekday hr hc acc h h1 h2
      exact ih _ h1' h2'

/-- C10: the TOU lookup is total over arbitrary tariff configuration — a
missing or short schedule defaults the period to off_peak, a missing rate
defaults to 0, and with no rates and no export credits configured the
day-savings totals are zero. -/
theorem c10_tou_total :
    (∀ (cfg : FinConfig) (hour month weekday : ℕ),
      ((dget ((dget cfg.tou_schedule (season_of cfg month)).getD [])
        (day_type_of weekday)).getD []).length ≤ hour →
      (get_tou_info cfg hour month weekday).2 = "off_peak")
    ∧ (∀ (cfg : FinConfig) (hour month weekday : ℕ),
      dget ((dget cfg.rates (season_of cfg month)).getD [])
        (get_tou_info cfg hour month weekday).2 = none →
      (get_tou_info cfg hour month weekday).1 = 0)
    ∧ (∀ (cfg : FinConfig) (daily_hourly : List (String × List ℚ))
        (sc exp : ℚ) (mmdd : String) (month weekday : ℕ),
      cfg.rates = [] → cfg.export_credits = [] →
      mget (calc_day_savings cfg daily_hourly sc exp mmdd month weekday).1
        "total" 0 = 0
      ∧ mget (calc_day_savings cfg daily_hourly sc exp mmdd month weekday).2
        "total" 0 = 0) := by
  refine ⟨?_, ?_, ?_⟩
  · intro cfg hour month weekday h
    unfold get_tou_info
    dsimp only
    rw [getD_of_len_le _ _ _ h]
  · intro cfg hour month weekday h
    unfold get_tou_info at h ⊢
    dsimp only at h ⊢
    unfold mget
    rw [h]
    rfl
  · intro cfg daily_hourly sc exp mmdd month weekday hr hc
    unfold calc_day_savings
    dsimp only
    split
    · constructor <;> simp [mget, dget]
    · have hinit1 : mget [("peak", (0:ℚ)), ("standard", 0), ("off_peak", 0),
          ("total", 0)] "total" 0 = 0 := by simp [mget, dget]
      have hinit2 : mget [("standard", (0:ℚ)), ("off_peak", 0), ("total", 0)]
          "total" 0 = 0 := by simp [mget, dget]
      obtain ⟨hf1, hf2⟩ := fold_savings_total cfg
        ((dget daily_hourly mmdd).getD (List.replicate 24 0))
        ((dget daily_hourly mmdd).getD (List.replicate 24 0)).sum
        sc exp month weekday hr hc (List.range 24)
        ([("peak", 0), ("standard", 0), ("off_peak", 0), ("total", 0)],
          [("standard", 0), ("off_peak", 0), ("total", 0)]) hinit1 hinit2
      constructor
      · rw [mget_map_pyround, hf1, pyround_zero]
      · rw [mget_map_pyround, hf2, pyround_zero]

theorem c10_witness :
    ((dget ((dget (FinConfig.mk [] [] [] []).tou_schedule
        (season_of (FinConfig.mk [] [] [] []) 6)).getD [])
      (day_type_of 2)).getD []).length ≤ 9
    ∧ (get_tou_info (FinConfig.mk [] [] [] []) 9 6 2).2 = "off_peak"
    ∧ mget (calc_day_savings (FinConfig.mk [] [] [] []) [] 5 3 "06-15" 6 2).1
        "total" 0 = 0 :=
  ⟨by decide, c10_tou_total.1 (FinConfig.mk [] [] [] []) 9 6 2 (by decide),
    (c10_tou_total.2.2 (FinConfig.mk [] [] [] []) [] 5 3 "06-15" 6 2 rfl rfl).1⟩

end Nautica
